import Mathlib

/-!
Shallow embedding of the core of `gh-ghq-cd` (the canonical variant under
`src/`: `app.rs`, `selection.rs`, `multiplexer.rs`, `command.rs`,
`environment.rs`, `ghq.rs`, `shell.rs`).

The embedding models:
* the display-label computation of `selection.rs::select_repository`;
* the fzf result post-processing of `selection.rs::run_fzf`;
* the three multiplexer backends of `multiplexer.rs` as functions from a
  `WindowConfig` to the ordered list of external commands they issue
  (assuming every issued external command succeeds), together with the
  `InvalidPath` failure raised when `start_dir` is not valid UTF-8;
* an abstract interpreter of tmux/zellij control commands on a window
  layout (pane tree with titles, working directories, focus, typed input),
  used to state observable-layout properties;
* the orchestrator `app.rs::run` / `run_with_deps` / `handle_selection`
  as functions from parsed arguments plus an environment oracle to an
  ordered list of abstract effects.
-/

namespace GhGhqCd

/-! ## String helpers (Rust `str` methods used by `selection.rs`) -/

/-- Rust `full_path.strip_prefix(root)`: if `root` is a prefix of `s`,
return the remainder, else `none`. -/
def stripPrefixStr (root s : String) : Option String :=
  if root.data.isPrefixOf s.data then some ⟨s.data.drop root.data.length⟩ else none

/-- Rust `s.trim_start_matches('/')`: remove all leading `/` characters. -/
def trimStartSlashes (s : String) : String :=
  ⟨s.data.dropWhile (fun c => c = '/')⟩

/-- The display label built in `selection.rs::select_repository` (lines
103-117): the first root (in the order of `roots`) that is a string prefix
of `full_path` is stripped and leading separators removed; if no root
matches, the full path is used unchanged. -/
def displayLabel (roots : List String) (full_path : String) : String :=
  match roots.findSome? (fun root => stripPrefixStr root full_path) with
  | some stripped => trimStartSlashes stripped
  | none => full_path

/-- Modelled from the spec: display label computed from the FIRST root in
`roots` that is a string prefix of `p` (spec §4.3 step 1), used to compare
against the implementation. -/
def displayLabelFirstSpec (roots : List String) (p : String) : String :=
  match roots.find? (fun r => r.data.isPrefixOf p.data) with
  | some r => trimStartSlashes ⟨p.data.drop r.data.length⟩
  | none => p

/-- Modelled from the spec: display label computed from the LONGEST root in
`roots` that is a string prefix of `p` (spec §8 first testable property),
used to compare against the implementation. -/
def displayLabelLongestSpec (roots : List String) (p : String) : String :=
  let best := (roots.filter (fun r => r.data.isPrefixOf p.data)).foldl
    (fun acc r =>
      match acc with
      | none => some r
      | some b => if b.data.length < r.data.length then some r else some b)
    none
  match best with
  | some r => trimStartSlashes ⟨p.data.drop r.data.length⟩
  | none => p

/-! ## UTF-8 decoding (Rust `Path::to_str`)

`multiplexer.rs` converts `cfg.start_dir : PathBuf` to `&str` with
`to_str()`, which succeeds exactly when the path bytes are valid UTF-8.
Paths are modelled as raw byte lists; the decoder below is the strict
UTF-8 decoder (rejecting overlong forms, surrogates and out-of-range
code points, as Rust does). -/

/-- A UTF-8 continuation byte: `0x80..=0xBF`. -/
def isContByte (b : Nat) : Bool := 0x80 ≤ b && b ≤ 0xBF

/-- Strict UTF-8 decoding of a byte list into characters. -/
def utf8DecodeAux : List Nat → Option (List Char)
  | [] => some []
  | b :: rest =>
    if b ≤ 0x7F then
      (utf8DecodeAux rest).map (fun cs => Char.ofNat b :: cs)
    else if 0xC2 ≤ b && b ≤ 0xDF then
      match rest with
      | b1 :: rest1 =>
        if isContByte b1 then
          (utf8DecodeAux rest1).map
            (fun cs => Char.ofNat ((b - 0xC0) * 64 + (b1 - 0x80)) :: cs)
        else none
      | [] => none
    else if 0xE0 ≤ b && b ≤ 0xEF then
      match rest with
      | b1 :: b2 :: rest2 =>
        let firstOk :=
          if b = 0xE0 then 0xA0 ≤ b1 && b1 ≤ 0xBF
          else if b = 0xED then 0x80 ≤ b1 && b1 ≤ 0x9F
          else isContByte b1
        if firstOk && isContByte b2 then
          (utf8DecodeAux rest2).map
            (fun cs =>
              Char.ofNat ((b - 0xE0) * 4096 + (b1 - 0x80) * 64 + (b2 - 0x80)) :: cs)
        else none
      | _ => none
    else if 0xF0 ≤ b && b ≤ 0xF4 then
      match rest with
      | b1 :: b2 :: b3 :: rest3 =>
        let firstOk :=
          if b = 0xF0 then 0x90 ≤ b1 && b1 ≤ 0xBF
          else if b = 0xF4 then 0x80 ≤ b1 && b1 ≤ 0x8F
          else isContByte b1
        if firstOk && isContByte b2 && isContByte b3 then
          (utf8DecodeAux rest3).map
            (fun cs =>
              Char.ofNat ((b - 0xF0) * 262144 + (b1 - 0x80) * 4096 +
                (b2 - 0x80) * 64 + (b3 - 0x80)) :: cs)
        else none
      | _ => none
    else none

/-- Rust `Path::to_str`: decode the path bytes as UTF-8 text. -/
def decodeUtf8? (bs : List Nat) : Option String :=
  (utf8DecodeAux bs).map (fun cs => ⟨cs⟩)

/-! ## Multiplexer command traces (`multiplexer.rs`) -/

/-- One external command: a program name and its argument list, as passed
to `CommandRunner::run`. -/
structure Cmd where
  program : String
  args : List String
deriving DecidableEq, Repr

def tmuxCmd (args : List String) : Cmd := ⟨"tmux", args⟩

def zellijCmd (args : List String) : Cmd := ⟨"zellij", args⟩

/-- Errors a multiplexer backend can raise on its own (before running any
external command): `start_dir` not being valid UTF-8. -/
inductive MuxError where
  | invalidPath
deriving DecidableEq, Repr

/-- The outcome of one multiplexer operation: the external commands issued,
in order (under the assumption that every issued command succeeds), and the
backend's own error, if it failed.  On error the command list holds the
commands issued before the failure. -/
structure MuxResult where
  cmds : List Cmd
  err : Option MuxError
deriving DecidableEq, Repr

/-- `multiplexer.rs::WindowConfig`: window/pane title and starting
directory.  `start_dir` is a `PathBuf`, kept as raw bytes. -/
structure WindowConfig where
  name : String
  start_dir : List Nat
deriving DecidableEq, Repr

/-- `TmuxClient::new_window` (multiplexer.rs lines 33-69). -/
def TmuxClient.new_window (cfg : WindowConfig) (pane_count : Nat) (horizontal : Bool) :
    MuxResult :=
  match decodeUtf8? cfg.start_dir with
  | none => ⟨[], some .invalidPath⟩
  | some start_dir =>
    let create := tmuxCmd ["new-window", "-n", cfg.name, "-c", start_dir]
    if 2 ≤ pane_count then
      let split := if horizontal then "-h" else "-v"
      let nav_to_first := if horizontal then "-L" else "-U"
      let nav_to_second := if horizontal then "-R" else "-D"
      ⟨[create,
        tmuxCmd ["split-window", split, "-c", start_dir],
        tmuxCmd ["select-pane", nav_to_first],
        tmuxCmd ["select-pane", "-T", cfg.name],
        tmuxCmd ["select-pane", nav_to_second],
        tmuxCmd ["select-pane", "-T", cfg.name],
        tmuxCmd ["select-pane", nav_to_first],
        tmuxCmd ["select-layout", "-E"]], none⟩
    else ⟨[create], none⟩

/-- `TmuxClient::rename_window` (multiplexer.rs lines 71-75). -/
def TmuxClient.rename_window (name : String) : MuxResult :=
  ⟨[tmuxCmd ["rename-window", name]], none⟩

/-- `TmuxClient::new_pane` (multiplexer.rs lines 77-118). -/
def TmuxClient.new_pane (cfg : WindowConfig) (pane_count : Nat) (horizontal : Bool) :
    MuxResult :=
  match decodeUtf8? cfg.start_dir with
  | none => ⟨[], some .invalidPath⟩
  | some start_dir =>
    let primary_split := if horizontal then "-vf" else "-hf"
    let base :=
      [tmuxCmd ["split-window", primary_split, "-c", start_dir],
       tmuxCmd ["select-pane", "-T", cfg.name]]
    if 2 ≤ pane_count then
      let secondary_split := if horizontal then "-h" else "-v"
      let nav_to_first := if horizontal then "-L" else "-U"
      let nav_to_second := if horizontal then "-R" else "-D"
      ⟨base ++
        [tmuxCmd ["split-window", secondary_split, "-c", start_dir],
         tmuxCmd ["select-pane", nav_to_first],
         tmuxCmd ["select-pane", "-T", cfg.name],
         tmuxCmd ["select-pane", nav_to_second],
         tmuxCmd ["select-pane", "-T", cfg.name],
         tmuxCmd ["select-pane", nav_to_first],
         tmuxCmd ["select-layout", "-E"]], none⟩
    else
      ⟨base ++ [tmuxCmd ["select-layout", "-E"]], none⟩

/-- `TmuxClient::send_keys` (multiplexer.rs lines 120-124). -/
def TmuxClient.send_keys (keys : String) : MuxResult :=
  ⟨[tmuxCmd ["send-keys", keys, "Enter"]], none⟩

/-- `ZellijClient::new_window` (multiplexer.rs lines 128-170). -/
def ZellijClient.new_window (cfg : WindowConfig) (pane_count : Nat) (horizontal : Bool) :
    MuxResult :=
  match decodeUtf8? cfg.start_dir with
  | none => ⟨[], some .invalidPath⟩
  | some start_dir =>
    let base :=
      [zellijCmd ["action", "new-tab", "--name", cfg.name, "--cwd", start_dir],
       zellijCmd ["action", "rename-pane", cfg.name]]
    if 2 ≤ pane_count then
      let direction := if horizontal then "right" else "down"
      let focus_direction := if horizontal then "left" else "up"
      ⟨base ++
        [zellijCmd ["action", "new-pane", "--direction", direction, "--cwd", start_dir],
         zellijCmd ["action", "rename-pane", cfg.name],
         zellijCmd ["action", "move-focus", focus_direction]], none⟩
    else ⟨base, none⟩

/-- `ZellijClient::rename_window` (multiplexer.rs lines 172-176). -/
def ZellijClient.rename_window (name : String) : MuxResult :=
  ⟨[zellijCmd ["action", "rename-tab", name]], none⟩

/-- `ZellijClient::new_pane` (multiplexer.rs lines 178-228). -/
def ZellijClient.new_pane (cfg : WindowConfig) (pane_count : Nat) (horizontal : Bool) :
    MuxResult :=
  match decodeUtf8? cfg.start_dir with
  | none => ⟨[], some .invalidPath⟩
  | some start_dir =>
    let primary_direction := if horizontal then "down" else "right"
    let base :=
      [zellijCmd ["action", "new-pane", "--direction", primary_direction, "--cwd", start_dir],
       zellijCmd ["action", "rename-pane", cfg.name]]
    if 2 ≤ pane_count then
      let secondary_direction := if horizontal then "right" else "down"
      let focus_direction := if horizontal then "left" else "up"
      ⟨base ++
        [zellijCmd ["action", "new-pane", "--direction", secondary_direction, "--cwd", start_dir],
         zellijCmd ["action", "rename-pane", cfg.name],
         zellijCmd ["action", "move-focus", focus_direction]], none⟩
    else ⟨base, none⟩

/-- `ZellijClient::send_keys` (multiplexer.rs lines 230-237). -/
def ZellijClient.send_keys (keys : String) : MuxResult :=
  ⟨[zellijCmd ["action", "write-chars", keys],
    zellijCmd ["action", "write", "10"]], none⟩

/-- `NoopClient` (multiplexer.rs lines 240-253): every operation succeeds
immediately and issues no command. -/
def NoopClient.new_window (_cfg : WindowConfig) (_pane_count : Nat) (_horizontal : Bool) :
    MuxResult := ⟨[], none⟩

def NoopClient.rename_window (_name : String) : MuxResult := ⟨[], none⟩

def NoopClient.new_pane (_cfg : WindowConfig) (_pane_count : Nat) (_horizontal : Bool) :
    MuxResult := ⟨[], none⟩

def NoopClient.send_keys (_keys : String) : MuxResult := ⟨[], none⟩

/-- A tmux `split-window` command (either orientation, full-size or not). -/
def isSplitCmd (c : Cmd) : Bool :=
  c.program = "tmux" && c.args.head? = some "split-window"

/-! ## Abstract window-layout interpreter

The multiplexer itself is an external tool; the spec (§4.4) describes the
layouts its control commands produce.  The interpreter below gives the
issued commands an abstract semantics good enough to observe everything
the spec names as observable: pane count, relative geometry (split axis
and ordering), pane titles, per-pane starting directory, focus, window
title, and the command lines typed into the focused pane.  Pane sizes are
not tracked (`select-layout -E` only equalizes sizes, so it is a no-op
here).

A window is a binary tree of panes; in a split the first child is the
left/top region and the second the right/bottom region.  Focus is the path
from the root to the focused pane (`false` = first child). Directional
pane navigation moves across the deepest ancestor split of the matching
axis, landing on the pane of the sibling region nearest to the crossed
boundary (leftmost/topmost as tie-break), which matches tmux/zellij
behaviour on the at-most-three-pane layouts this tool creates. -/

/-- A pane tree: leaves are panes with an optional title and a working
directory. -/
inductive Layout where
  | leaf (title : Option String) (cwd : String)
  | hsplit (l r : Layout)
  | vsplit (t b : Layout)
deriving DecidableEq, Repr

/-- The panes of a layout, left-to-right / top-to-bottom:
(title, working directory) pairs. -/
def Layout.panes : Layout → List (Option String × String)
  | .leaf t c => [(t, c)]
  | .hsplit a b => a.panes ++ b.panes
  | .vsplit a b => a.panes ++ b.panes

/-- The subtree at a path (stops at a leaf if the path is too long). -/
def Layout.subAt : Layout → List Bool → Layout
  | l, [] => l
  | .hsplit a _, false :: p => a.subAt p
  | .hsplit _ b, true :: p => b.subAt p
  | .vsplit a _, false :: p => a.subAt p
  | .vsplit _ b, true :: p => b.subAt p
  | l, _ :: _ => l

/-- Replace the subtree at a path using `f` (no-op when the path runs into
a leaf early). -/
def Layout.modifyAt : Layout → List Bool → (Layout → Layout) → Layout
  | l, [], f => f l
  | .hsplit a b, false :: p, f => .hsplit (a.modifyAt p f) b
  | .hsplit a b, true :: p, f => .hsplit a (b.modifyAt p f)
  | .vsplit a b, false :: p, f => .vsplit (a.modifyAt p f) b
  | .vsplit a b, true :: p, f => .vsplit a (b.modifyAt p f)
  | l, _ :: _, _ => l

/-- Is the root node a split of the requested axis?  `wantV = true` asks
for a top/bottom (`vsplit`) node, `wantV = false` for a left/right
(`hsplit`) node. -/
def Layout.isSplitOf (wantV : Bool) : Layout → Bool
  | .vsplit _ _ => wantV
  | .hsplit _ _ => !wantV
  | .leaf _ _ => false

/-- Path to the pane of this subtree nearest to the boundary being crossed
during navigation across a `wantV` split coming from side `fromSide`; on
splits of the other axis, take the first region. -/
def Layout.descend (wantV fromSide : Bool) : Layout → List Bool
  | .leaf _ _ => []
  | .vsplit a b =>
    if wantV then
      match fromSide with
      | true => true :: Layout.descend wantV fromSide b
      | false => false :: Layout.descend wantV fromSide a
    else false :: Layout.descend wantV fromSide a
  | .hsplit a b =>
    if wantV then false :: Layout.descend wantV fromSide a
    else
      match fromSide with
      | true => true :: Layout.descend wantV fromSide b
      | false => false :: Layout.descend wantV fromSide a

/-- The deepest position along `focus` sitting on the `fromSide` side of a
split of the requested axis; navigation crosses that split. -/
def navMatchIdx (layout : Layout) (focus : List Bool) (wantV fromSide : Bool) :
    Option Nat :=
  ((List.range focus.length).filter
    (fun i =>
      (layout.subAt (focus.take i)).isSplitOf wantV &&
        focus.getD i (!fromSide) = fromSide)).getLast?

/-- The state of one multiplexer window. `input` is the list of command
lines submitted to the window's shell, `pending` the text typed but not
yet submitted. -/
structure WinState where
  winName : String
  layout : Layout
  focus : List Bool
  input : List String
  pending : String
deriving DecidableEq, Repr

/-- A fresh window with a single untitled pane. -/
def freshWindow (name cwd : String) : WinState :=
  ⟨name, .leaf none cwd, [], [], ""⟩

/-- Directional focus movement (tmux `select-pane` with `-U`, `-D`, `-L`
or `-R`, zellij
`move-focus`): `wantV` selects the axis (vertical movement crosses
top/bottom splits), `fromSide` the side the focus currently sits on
(`true` = bottom/right, i.e. moving up or left). -/
def WinState.navigate (wantV fromSide : Bool) (st : WinState) : WinState :=
  match navMatchIdx st.layout st.focus wantV fromSide with
  | none => st
  | some i =>
    let q := st.focus.take i ++ [!fromSide]
    { st with focus := q ++ (st.layout.subAt q).descend wantV fromSide }

/-- Split the focused pane; the new pane (second region) takes the focus.
`isH = true` produces a left/right division. -/
def WinState.splitFocused (isH : Bool) (cwd : String) (st : WinState) : WinState :=
  { st with
    layout := st.layout.modifyAt st.focus
      (fun l => if isH then .hsplit l (.leaf none cwd) else .vsplit l (.leaf none cwd)),
    focus := st.focus ++ [true] }

/-- Full-size split (tmux `split-window` with `-hf` or `-vf`): the new
pane spans the
whole window edge, i.e. the split is inserted at the root. -/
def WinState.splitFull (isH : Bool) (cwd : String) (st : WinState) : WinState :=
  { st with
    layout := if isH then .hsplit st.layout (.leaf none cwd)
              else .vsplit st.layout (.leaf none cwd),
    focus := [true] }

/-- Set the focused pane's title. -/
def WinState.setTitleFocused (t : String) (st : WinState) : WinState :=
  { st with
    layout := st.layout.modifyAt st.focus
      (fun l => match l with
        | .leaf _ c => .leaf (some t) c
        | other => other) }

/-- Interpretation of one tmux control command. -/
def applyTmux (st : WinState) (c : Cmd) : WinState :=
  match c.program, c.args with
  | "tmux", ["new-window", "-n", n, "-c", d] => freshWindow n d
  | "tmux", ["split-window", "-v", "-c", d] => st.splitFocused false d
  | "tmux", ["split-window", "-h", "-c", d] => st.splitFocused true d
  | "tmux", ["split-window", "-vf", "-c", d] => st.splitFull false d
  | "tmux", ["split-window", "-hf", "-c", d] => st.splitFull true d
  | "tmux", ["select-pane", "-U"] => st.navigate true true
  | "tmux", ["select-pane", "-D"] => st.navigate true false
  | "tmux", ["select-pane", "-L"] => st.navigate false true
  | "tmux", ["select-pane", "-R"] => st.navigate false false
  | "tmux", ["select-pane", "-T", t] => st.setTitleFocused t
  | "tmux", ["select-layout", "-E"] => st
  | "tmux", ["rename-window", n] => { st with winName := n }
  | "tmux", ["send-keys", k, "Enter"] =>
    { st with input := st.input ++ [st.pending ++ k], pending := "" }
  | _, _ => st

/-- Interpretation of one zellij action. -/
def applyZellij (st : WinState) (c : Cmd) : WinState :=
  match c.program, c.args with
  | "zellij", ["action", "new-tab", "--name", n, "--cwd", d] => freshWindow n d
  | "zellij", ["action", "new-pane", "--direction", "down", "--cwd", d] =>
    st.splitFocused false d
  | "zellij", ["action", "new-pane", "--direction", "right", "--cwd", d] =>
    st.splitFocused true d
  | "zellij", ["action", "move-focus", "up"] => st.navigate true true
  | "zellij", ["action", "move-focus", "down"] => st.navigate true false
  | "zellij", ["action", "move-focus", "left"] => st.navigate false true
  | "zellij", ["action", "move-focus", "right"] => st.navigate false false
  | "zellij", ["action", "rename-pane", t] => st.setTitleFocused t
  | "zellij", ["action", "rename-tab", n] => { st with winName := n }
  | "zellij", ["action", "write-chars", k] => { st with pending := st.pending ++ k }
  | "zellij", ["action", "write", "10"] =>
    { st with input := st.input ++ [st.pending], pending := "" }
  | _, _ => st

/-- Run a tmux command trace from a window state. -/
def runTmuxTrace (st : WinState) (cs : List Cmd) : WinState :=
  cs.foldl applyTmux st

/-- Run a zellij command trace from a window state. -/
def runZellijTrace (st : WinState) (cs : List Cmd) : WinState :=
  cs.foldl applyZellij st

/-- Transpose the split axis of every node of a layout. -/
def mirrorLayout : Layout → Layout
  | .leaf t c => .leaf t c
  | .hsplit a b => .vsplit (mirrorLayout a) (mirrorLayout b)
  | .vsplit a b => .hsplit (mirrorLayout a) (mirrorLayout b)

/-- Transpose the orientation of a tmux split flag. -/
def transposeAxis (s : String) : String :=
  if s = "-v" then "-h" else if s = "-h" then "-v"
  else if s = "-vf" then "-hf" else if s = "-hf" then "-vf" else s

/-- Transpose a tmux pane-navigation flag. -/
def transposeNav (s : String) : String :=
  if s = "-U" then "-L" else if s = "-L" then "-U"
  else if s = "-D" then "-R" else if s = "-R" then "-D" else s

/-- Transpose the axis of one issued command (split orientation and
navigation direction); commands without an axis are unchanged. -/
def transposeCmd (c : Cmd) : Cmd :=
  match c.program, c.args with
  | "tmux", ["split-window", s, "-c", d] => tmuxCmd ["split-window", transposeAxis s, "-c", d]
  | "tmux", [sp, s] =>
    if sp = "select-pane" then tmuxCmd ["select-pane", transposeNav s] else c
  | _, _ => c

/-! ## Orchestrator (`app.rs`) -/

/-- `app.rs::TmuxMode`. -/
inductive TmuxMode where
  | currentPane
  | newWindow (count : Nat) (horizontal : Bool)
  | newPane (count : Nat) (horizontal : Bool)
deriving DecidableEq, Repr

/-- The observable effects of `handle_selection`: working-directory change,
calls into the `Multiplexer` capability (recorded abstractly, as the mock
client in the repository's tests does), and process-image replacement by a
shell. -/
inductive Effect where
  | setCurrentDir (path : String)
  | muxNewWindow (name : String) (startDir : String) (count : Nat) (horizontal : Bool)
  | muxNewPane (name : String) (startDir : String) (count : Nat) (horizontal : Bool)
  | muxRenameWindow (name : String)
  | muxSendKeys (keys : String)
  | execShell (shell : String)
deriving DecidableEq, Repr

/-- Rust `Path::new(s).file_name()`: the final path component, with empty
and `.` components ignored; `none` when there is no component or the path
ends in `..`. -/
def fileName? (s : String) : Option String :=
  let comps := (s.splitOn "/").filter (fun c => c ≠ "" && c ≠ ".")
  match comps.getLast? with
  | some c => if c = ".." then none else some c
  | none => none

/-- The effective-mode resolution inside `handle_selection` (app.rs lines
194-199): outside tmux every mode collapses to `CurrentPane`. -/
def effectiveModeOf (use_tmux : Bool) (mode : TmuxMode) : TmuxMode :=
  if use_tmux then mode else .currentPane

/-- `app.rs::handle_selection` (lines 181-230) as the ordered list of
effects it performs, assuming each effect succeeds (on the `CurrentPane`
path the final `exec` never returns). -/
def handle_selection (selected : String) (mode : TmuxMode) (command : Option String)
    (use_tmux : Bool) (shellVar : Option String) : List Effect :=
  let repo_name := (fileName? selected).getD selected
  match effectiveModeOf use_tmux mode with
  | .newWindow count horizontal =>
    Effect.muxNewWindow repo_name selected count horizontal ::
      (match command with
       | some cmd => [Effect.muxSendKeys cmd]
       | none => [])
  | .newPane count horizontal =>
    Effect.muxNewPane repo_name selected count horizontal ::
      (match command with
       | some cmd => [Effect.muxSendKeys cmd]
       | none => [])
  | .currentPane =>
    Effect.setCurrentDir selected ::
      ((if use_tmux then [Effect.muxRenameWindow repo_name] else []) ++
        [Effect.execShell (shellVar.getD "/bin/sh")])

/-- The error kinds surfaced by the orchestrator. -/
inductive AppError where
  | invalidFlagCombination
  | commandNotFound (tool : String)
  | commandFailed (tool : String)
deriving DecidableEq, Repr

/-- The external world consumed by one invocation: presence of the tools
on the search path, stdout of the two `ghq` calls (`none` models a failed
call), the interactive fzf outcome, and the relevant environment
variables. -/
structure World where
  ghqOk : Bool
  fzfOk : Bool
  batOk : Bool
  rootsOut : Option String
  listOut : Option String
  fzfExitOk : Bool
  fzfStdout : String
  tmuxVar : Option String
  shellVar : Option String
deriving Repr

/-- Rust `str::lines()`: split on newlines, strip a trailing carriage
return from each line, no empty trailing line. -/
def rustLines (s : String) : List String :=
  let parts := s.splitOn "\n"
  let parts := match parts.getLast? with
    | some "" => parts.dropLast
    | _ => parts
  parts.map (fun l => if l.data.getLast? = some '\r' then ⟨l.data.dropLast⟩ else l)

/-- `command.rs::CommandChecker::check` against the world oracle. -/
def checkTool (ok : Bool) (tool : String) : Except AppError Unit :=
  if ok then .ok () else .error (.commandNotFound tool)

/-- `ghq.rs`-style `ghq root --all` call of `selection.rs` (via
`ghq::roots`). -/
def ghqRootsOf (w : World) : Except AppError (List String) :=
  match w.rootsOut with
  | some out => .ok (rustLines out)
  | none => .error (.commandFailed "ghq")

/-- `ghq list --full-path` call of `selection.rs` (via
`ghq::list_full_path`). -/
def ghqListOf (w : World) : Except AppError (List String) :=
  match w.listOut with
  | some out => .ok (rustLines out)
  | none => .error (.commandFailed "ghq")

/-- The post-processing of the fzf child process in `selection.rs::run_fzf`
(lines 71-93): non-zero exit (abort) or empty stdout yield no selection;
otherwise the second tab-separated field of the trimmed output (or the
whole line when there is no second field) is the selected value. -/
def run_fzf_post (exitOk : Bool) (out : String) : Option String :=
  if !exitOk then none
  else
    let selected := out.trim
    if selected = "" then none
    else some ((selected.splitOn "\t").getD 1 selected)

/-- `selection.rs::select_repository` (lines 96-123): list roots and
repositories, build the display items, run fzf, and return the selected
full path — the empty string when the user aborted or nothing was
selected. -/
def select_repository (w : World) : Except AppError String := do
  let roots ← ghqRootsOf w
  let repos ← ghqListOf w
  let _items := repos.map (fun full_path => (displayLabel roots full_path, full_path))
  let selected := run_fzf_post w.fzfExitOk w.fzfStdout
  pure (selected.getD "")

/-- `app.rs::run_with_deps` (lines 158-179): check the required tools,
select a repository, treat the empty selection as a normal early exit, and
otherwise hand over to `handle_selection`. -/
def run_with_deps (mode : TmuxMode) (command : Option String) (use_tmux : Bool)
    (w : World) : Except AppError (List Effect) := do
  let _ ← checkTool w.ghqOk "ghq"
  let _ ← checkTool w.fzfOk "fzf"
  let selected ← select_repository w
  if selected = "" then pure []
  else pure (handle_selection selected mode command use_tmux w.shellVar)

/-- The parsed command-line flags (`app.rs::Args`). -/
structure Args where
  new_window : Bool
  deprecated_new_window : Bool
  new_pane : Option Nat
  vertical : Bool
  horizontal : Bool
  command : Option String
deriving DecidableEq, Repr

/-- `app.rs::Args::tmux_mode` (lines 64-90). -/
def Args.tmux_mode (a : Args) : TmuxMode :=
  let is_new_window := a.new_window || a.deprecated_new_window
  match a.new_pane with
  | some count =>
    if is_new_window then .newWindow count a.horizontal
    else .newPane count a.horizontal
  | none =>
    if is_new_window then .newWindow 0 false
    else .currentPane

/-- `app.rs::run` (lines 94-156) after argument parsing: the flag
validation rejecting `-c` together with `-p 2` runs before anything else;
then the backend is picked from the `TMUX` environment variable and
control passes to `run_with_deps`. -/
def run (a : Args) (w : World) : Except AppError (List Effect) :=
  if (match a.new_pane with
      | some count => decide (2 ≤ count) && a.command.isSome
      | none => false) then
    .error .invalidFlagCombination
  else
    run_with_deps a.tmux_mode a.command w.tmuxVar.isSome w

/-! ## Evaluation lemmas for the interpreter

One rewrite lemma per command form, plus the focus-navigation steps on
the concrete layout shapes this tool produces; they let `simp` evaluate a
command trace step by step without unfolding the interpreter's matcher. -/

@[simp]
theorem applyTmux_new_window (st : WinState) (nm d : String) :
    applyTmux st (tmuxCmd ["new-window", "-n", nm, "-c", d]) = freshWindow nm d := rfl

@[simp]
theorem applyTmux_split_v (st : WinState) (d : String) :
    applyTmux st (tmuxCmd ["split-window", "-v", "-c", d]) = st.splitFocused false d := rfl

@[simp]
theorem applyTmux_split_h (st : WinState) (d : String) :
    applyTmux st (tmuxCmd ["split-window", "-h", "-c", d]) = st.splitFocused true d := rfl

@[simp]
theorem applyTmux_split_vf (st : WinState) (d : String) :
    applyTmux st (tmuxCmd ["split-window", "-vf", "-c", d]) = st.splitFull false d := rfl

@[simp]
theorem applyTmux_split_hf (st : WinState) (d : String) :
    applyTmux st (tmuxCmd ["split-window", "-hf", "-c", d]) = st.splitFull true d := rfl

@[simp]
theorem applyTmux_sel_up (st : WinState) :
    applyTmux st (tmuxCmd ["select-pane", "-U"]) = st.navigate true true := rfl

@[simp]
theorem applyTmux_sel_down (st : WinState) :
    applyTmux st (tmuxCmd ["select-pane", "-D"]) = st.navigate true false := rfl

@[simp]
theorem applyTmux_sel_left (st : WinState) :
    applyTmux st (tmuxCmd ["select-pane", "-L"]) = st.navigate false true := rfl

@[simp]
theorem applyTmux_sel_right (st : WinState) :
    applyTmux st (tmuxCmd ["select-pane", "-R"]) = st.navigate false false := rfl

@[simp]
theorem applyTmux_sel_title (st : WinState) (t : String) :
    applyTmux st (tmuxCmd ["select-pane", "-T", t]) = st.setTitleFocused t := rfl

@[simp]
theorem applyTmux_sel_layout (st : WinState) :
    applyTmux st (tmuxCmd ["select-layout", "-E"]) = st := rfl

@[simp]
theorem applyTmux_rename (st : WinState) (n : String) :
    applyTmux st (tmuxCmd ["rename-window", n]) = { st with winName := n } := rfl

@[simp]
theorem applyTmux_send (st : WinState) (k : String) :
    applyTmux st (tmuxCmd ["send-keys", k, "Enter"])
      = { st with input := st.input ++ [st.pending ++ k], pending := "" } := rfl

@[simp]
theorem applyZellij_new_tab (st : WinState) (nm d : String) :
    applyZellij st (zellijCmd ["action", "new-tab", "--name", nm, "--cwd", d])
      = freshWindow nm d := rfl

@[simp]
theorem applyZellij_pane_down (st : WinState) (d : String) :
    applyZellij st (zellijCmd ["action", "new-pane", "--direction", "down", "--cwd", d])
      = st.splitFocused false d := rfl

@[simp]
theorem applyZellij_pane_right (st : WinState) (d : String) :
    applyZellij st (zellijCmd ["action", "new-pane", "--direction", "right", "--cwd", d])
      = st.splitFocused true d := rfl

@[simp]
theorem applyZellij_focus_up (st : WinState) :
    applyZellij st (zellijCmd ["action", "move-focus", "up"]) = st.navigate true true := rfl

@[simp]
theorem applyZellij_focus_left (st : WinState) :
    applyZellij st (zellijCmd ["action", "move-focus", "left"]) = st.navigate false true := rfl

@[simp]
theorem applyZellij_rename_pane (st : WinState) (t : String) :
    applyZellij st (zellijCmd ["action", "rename-pane", t]) = st.setTitleFocused t := rfl

@[simp]
theorem applyZellij_rename_tab (st : WinState) (n : String) :
    applyZellij st (zellijCmd ["action", "rename-tab", n]) = { st with winName := n } := rfl

@[simp]
theorem applyZellij_write_chars (st : WinState) (k : String) :
    applyZellij st (zellijCmd ["action", "write-chars", k])
      = { st with pending := st.pending ++ k } := rfl

@[simp]
theorem applyZellij_write_enter (st : WinState) :
    applyZellij st (zellijCmd ["action", "write", "10"])
      = { st with input := st.input ++ [st.pending], pending := "" } := rfl

@[simp]
theorem navigate_vpair_up (w : String) (t1 t2 : Option String) (c1 c2 : String)
    (inp : List String) (pnd : String) :
    WinState.navigate true true ⟨w, .vsplit (.leaf t1 c1) (.leaf t2 c2), [true], inp, pnd⟩
      = ⟨w, .vsplit (.leaf t1 c1) (.leaf t2 c2), [false], inp, pnd⟩ := rfl

@[simp]
theorem navigate_vpair_down (w : String) (t1 t2 : Option String) (c1 c2 : String)
    (inp : List String) (pnd : String) :
    WinState.navigate true false ⟨w, .vsplit (.leaf t1 c1) (.leaf t2 c2), [false], inp, pnd⟩
      = ⟨w, .vsplit (.leaf t1 c1) (.leaf t2 c2), [true], inp, pnd⟩ := rfl

@[simp]
theorem navigate_hpair_left (w : String) (t1 t2 : Option String) (c1 c2 : String)
    (inp : List String) (pnd : String) :
    WinState.navigate false true ⟨w, .hsplit (.leaf t1 c1) (.leaf t2 c2), [true], inp, pnd⟩
      = ⟨w, .hsplit (.leaf t1 c1) (.leaf t2 c2), [false], inp, pnd⟩ := rfl

@[simp]
theorem navigate_hpair_right (w : String) (t1 t2 : Option String) (c1 c2 : String)
    (inp : List String) (pnd : String) :
    WinState.navigate false false ⟨w, .hsplit (.leaf t1 c1) (.leaf t2 c2), [false], inp, pnd⟩
      = ⟨w, .hsplit (.leaf t1 c1) (.leaf t2 c2), [true], inp, pnd⟩ := rfl

@[simp]
theorem navigate_nested_v_up (w : String) (t0 t1 t2 : Option String)
    (c0 c1 c2 : String) (inp : List String) (pnd : String) :
    WinState.navigate true true
        ⟨w, .hsplit (.leaf t0 c0) (.vsplit (.leaf t1 c1) (.leaf t2 c2)), [true, true], inp, pnd⟩
      = ⟨w, .hsplit (.leaf t0 c0) (.vsplit (.leaf t1 c1) (.leaf t2 c2)), [true, false], inp, pnd⟩ := rfl

@[simp]
theorem navigate_nested_v_down (w : String) (t0 t1 t2 : Option String)
    (c0 c1 c2 : String) (inp : List String) (pnd : String) :
    WinState.navigate true false
        ⟨w, .hsplit (.leaf t0 c0) (.vsplit (.leaf t1 c1) (.leaf t2 c2)), [true, false], inp, pnd⟩
      = ⟨w, .hsplit (.leaf t0 c0) (.vsplit (.leaf t1 c1) (.leaf t2 c2)), [true, true], inp, pnd⟩ := rfl

@[simp]
theorem navigate_nested_h_left (w : String) (t0 t1 t2 : Option String)
    (c0 c1 c2 : String) (inp : List String) (pnd : String) :
    WinState.navigate false true
        ⟨w, .vsplit (.leaf t0 c0) (.hsplit (.leaf t1 c1) (.leaf t2 c2)), [true, true], inp, pnd⟩
      = ⟨w, .vsplit (.leaf t0 c0) (.hsplit (.leaf t1 c1) (.leaf t2 c2)), [true, false], inp, pnd⟩ := rfl

@[simp]
theorem navigate_nested_h_right (w : String) (t0 t1 t2 : Option String)
    (c0 c1 c2 : String) (inp : List String) (pnd : String) :
    WinState.navigate false false
        ⟨w, .vsplit (.leaf t0 c0) (.hsplit (.leaf t1 c1) (.leaf t2 c2)), [true, false], inp, pnd⟩
      = ⟨w, .vsplit (.leaf t0 c0) (.hsplit (.leaf t1 c1) (.leaf t2 c2)), [true, true], inp, pnd⟩ := rfl

@[simp]
theorem splitFocused_single_v (w : String) (t0 : Option String) (c0 d : String)
    (inp : List String) (pnd : String) :
    WinState.splitFocused false d ⟨w, .leaf t0 c0, [], inp, pnd⟩
      = ⟨w, .vsplit (.leaf t0 c0) (.leaf none d), [true], inp, pnd⟩ := rfl

@[simp]
theorem splitFocused_single_h (w : String) (t0 : Option String) (c0 d : String)
    (inp : List String) (pnd : String) :
    WinState.splitFocused true d ⟨w, .leaf t0 c0, [], inp, pnd⟩
      = ⟨w, .hsplit (.leaf t0 c0) (.leaf none d), [true], inp, pnd⟩ := rfl

@[simp]
theorem splitFull_single_v (w : String) (t0 : Option String) (c0 d : String)
    (inp : List String) (pnd : String) :
    WinState.splitFull false d ⟨w, .leaf t0 c0, [], inp, pnd⟩
      = ⟨w, .vsplit (.leaf t0 c0) (.leaf none d), [true], inp, pnd⟩ := rfl

@[simp]
theorem splitFull_single_h (w : String) (t0 : Option String) (c0 d : String)
    (inp : List String) (pnd : String) :
    WinState.splitFull true d ⟨w, .leaf t0 c0, [], inp, pnd⟩
      = ⟨w, .hsplit (.leaf t0 c0) (.leaf none d), [true], inp, pnd⟩ := rfl

@[simp]
theorem splitFocused_second_of_pair_v (w : String) (t0 t1 : Option String)
    (c0 c1 d : String) (inp : List String) (pnd : String) :
    WinState.splitFocused false d ⟨w, .hsplit (.leaf t0 c0) (.leaf t1 c1), [true], inp, pnd⟩
      = ⟨w, .hsplit (.leaf t0 c0) (.vsplit (.leaf t1 c1) (.leaf none d)),
          [true, true], inp, pnd⟩ := rfl

@[simp]
theorem splitFocused_second_of_pair_h (w : String) (t0 t1 : Option String)
    (c0 c1 d : String) (inp : List String) (pnd : String) :
    WinState.splitFocused true d ⟨w, .vsplit (.leaf t0 c0) (.leaf t1 c1), [true], inp, pnd⟩
      = ⟨w, .vsplit (.leaf t0 c0) (.hsplit (.leaf t1 c1) (.leaf none d)),
          [true, true], inp, pnd⟩ := rfl

@[simp]
theorem setTitle_single (w : String) (t0 : Option String) (c0 t : String)
    (inp : List String) (pnd : String) :
    WinState.setTitleFocused t ⟨w, .leaf t0 c0, [], inp, pnd⟩
      = ⟨w, .leaf (some t) c0, [], inp, pnd⟩ := rfl

@[simp]
theorem setTitle_pair_v_fst (w : String) (t0 t1 : Option String) (c0 c1 t : String)
    (inp : List String) (pnd : String) :
    WinState.setTitleFocused t ⟨w, .vsplit (.leaf t0 c0) (.leaf t1 c1), [false], inp, pnd⟩
      = ⟨w, .vsplit (.leaf (some t) c0) (.leaf t1 c1), [false], inp, pnd⟩ := rfl

@[simp]
theorem setTitle_pair_v_snd (w : String) (t0 t1 : Option String) (c0 c1 t : String)
    (inp : List String) (pnd : String) :
    WinState.setTitleFocused t ⟨w, .vsplit (.leaf t0 c0) (.leaf t1 c1), [true], inp, pnd⟩
      = ⟨w, .vsplit (.leaf t0 c0) (.leaf (some t) c1), [true], inp, pnd⟩ := rfl

@[simp]
theorem setTitle_pair_h_fst (w : String) (t0 t1 : Option String) (c0 c1 t : String)
    (inp : List String) (pnd : String) :
    WinState.setTitleFocused t ⟨w, .hsplit (.leaf t0 c0) (.leaf t1 c1), [false], inp, pnd⟩
      = ⟨w, .hsplit (.leaf (some t) c0) (.leaf t1 c1), [false], inp, pnd⟩ := rfl

@[simp]
theorem setTitle_pair_h_snd (w : String) (t0 t1 : Option String) (c0 c1 t : String)
    (inp : List String) (pnd : String) :
    WinState.setTitleFocused t ⟨w, .hsplit (.leaf t0 c0) (.leaf t1 c1), [true], inp, pnd⟩
      = ⟨w, .hsplit (.leaf t0 c0) (.leaf (some t) c1), [true], inp, pnd⟩ := rfl

@[simp]
theorem setTitle_nested_v_fst (w : String) (t0 t1 t2 : Option String)
    (c0 c1 c2 t : String) (inp : List String) (pnd : String) :
    WinState.setTitleFocused t
        ⟨w, .hsplit (.leaf t0 c0) (.vsplit (.leaf t1 c1) (.leaf t2 c2)), [true, false], inp, pnd⟩
      = ⟨w, .hsplit (.leaf t0 c0) (.vsplit (.leaf (some t) c1) (.leaf t2 c2)),
          [true, false], inp, pnd⟩ := rfl

@[simp]
theorem setTitle_nested_v_snd (w : String) (t0 t1 t2 : Option String)
    (c0 c1 c2 t : String) (inp : List String) (pnd : String) :
    WinState.setTitleFocused t
        ⟨w, .hsplit (.leaf t0 c0) (.vsplit (.leaf t1 c1) (.leaf t2 c2)), [true, true], inp, pnd⟩
      = ⟨w, .hsplit (.leaf t0 c0) (.vsplit (.leaf t1 c1) (.leaf (some t) c2)),
          [true, true], inp, pnd⟩ := rfl

@[simp]
theorem setTitle_nested_h_fst (w : String) (t0 t1 t2 : Option String)
    (c0 c1 c2 t : String) (inp : List String) (pnd : String) :
    WinState.setTitleFocused t
        ⟨w, .vsplit (.leaf t0 c0) (.hsplit (.leaf t1 c1) (.leaf t2 c2)), [true, false], inp, pnd⟩
      = ⟨w, .vsplit (.leaf t0 c0) (.hsplit (.leaf (some t) c1) (.leaf t2 c2)),
          [true, false], inp, pnd⟩ := rfl

@[simp]
theorem setTitle_nested_h_snd (w : String) (t0 t1 t2 : Option String)
    (c0 c1 c2 t : String) (inp : List String) (pnd : String) :
    WinState.setTitleFocused t
        ⟨w, .vsplit (.leaf t0 c0) (.hsplit (.leaf t1 c1) (.leaf t2 c2)), [true, true], inp, pnd⟩
      = ⟨w, .vsplit (.leaf t0 c0) (.hsplit (.leaf t1 c1) (.leaf (some t) c2)),
          [true, true], inp, pnd⟩ := rfl

/-! ### Whole-operation evaluations

The final window state after each multiplexer operation, for each
orientation and pane-count regime.  `new_pane` operations start from a
window holding a single (possibly titled) pane, which is the situation
the tool itself is invoked in. -/

theorem evalT_new_window_v (cfg : WindowConfig) (d : String) (n : Nat) (st0 : WinState)
    (hd : decodeUtf8? cfg.start_dir = some d) (h2 : 2 <= n) :
    runTmuxTrace st0 (TmuxClient.new_window cfg n false).cmds
      = ⟨cfg.name, .vsplit (.leaf (some cfg.name) d) (.leaf (some cfg.name) d),
          [false], [], ""⟩ := by
  unfold TmuxClient.new_window
  rw [hd]
  simp only [if_pos h2]
  try simp only [Bool.false_eq_true, eq_self_iff_true, if_false, if_true, ite_false,
    ite_true, List.cons_append, List.nil_append]
  simp only [runTmuxTrace, runZellijTrace, List.foldl_cons, List.foldl_nil,
    applyTmux_new_window, applyTmux_split_v, applyTmux_split_h, applyTmux_split_vf,
    applyTmux_split_hf, applyTmux_sel_up, applyTmux_sel_down, applyTmux_sel_left,
    applyTmux_sel_right, applyTmux_sel_title, applyTmux_sel_layout, applyTmux_rename,
    applyTmux_send, applyZellij_new_tab, applyZellij_pane_down, applyZellij_pane_right,
    applyZellij_focus_up, applyZellij_focus_left, applyZellij_rename_pane,
    applyZellij_rename_tab, applyZellij_write_chars, applyZellij_write_enter,
    freshWindow, splitFocused_single_v, splitFocused_single_h, splitFull_single_v,
    splitFull_single_h, splitFocused_second_of_pair_v, splitFocused_second_of_pair_h,
    setTitle_single, setTitle_pair_v_fst, setTitle_pair_v_snd, setTitle_pair_h_fst,
    setTitle_pair_h_snd, setTitle_nested_v_fst, setTitle_nested_v_snd,
    setTitle_nested_h_fst, setTitle_nested_h_snd, navigate_vpair_up, navigate_vpair_down,
    navigate_hpair_left, navigate_hpair_right, navigate_nested_v_up, navigate_nested_v_down,
    navigate_nested_h_left, navigate_nested_h_right]

theorem evalT_new_window_h (cfg : WindowConfig) (d : String) (n : Nat) (st0 : WinState)
    (hd : decodeUtf8? cfg.start_dir = some d) (h2 : 2 <= n) :
    runTmuxTrace st0 (TmuxClient.new_window cfg n true).cmds
      = ⟨cfg.name, .hsplit (.leaf (some cfg.name) d) (.leaf (some cfg.name) d),
          [false], [], ""⟩ := by
  unfold TmuxClient.new_window
  rw [hd]
  simp only [if_pos h2]
  try simp only [Bool.false_eq_true, eq_self_iff_true, if_false, if_true, ite_false,
    ite_true, List.cons_append, List.nil_append]
  simp only [runTmuxTrace, runZellijTrace, List.foldl_cons, List.foldl_nil,
    applyTmux_new_window, applyTmux_split_v, applyTmux_split_h, applyTmux_split_vf,
    applyTmux_split_hf, applyTmux_sel_up, applyTmux_sel_down, applyTmux_sel_left,
    applyTmux_sel_right, applyTmux_sel_title, applyTmux_sel_layout, applyTmux_rename,
    applyTmux_send, applyZellij_new_tab, applyZellij_pane_down, applyZellij_pane_right,
    applyZellij_focus_up, applyZellij_focus_left, applyZellij_rename_pane,
    applyZellij_rename_tab, applyZellij_write_chars, applyZellij_write_enter,
    freshWindow, splitFocused_single_v, splitFocused_single_h, splitFull_single_v,
    splitFull_single_h, splitFocused_second_of_pair_v, splitFocused_second_of_pair_h,
    setTitle_single, setTitle_pair_v_fst, setTitle_pair_v_snd, setTitle_pair_h_fst,
    setTitle_pair_h_snd, setTitle_nested_v_fst, setTitle_nested_v_snd,
    setTitle_nested_h_fst, setTitle_nested_h_snd, navigate_vpair_up, navigate_vpair_down,
    navigate_hpair_left, navigate_hpair_right, navigate_nested_v_up, navigate_nested_v_down,
    navigate_nested_h_left, navigate_nested_h_right]

theorem evalT_new_window_0 (cfg : WindowConfig) (d : String) (n : Nat) (horiz : Bool)
    (st0 : WinState) (hd : decodeUtf8? cfg.start_dir = some d) (h2 : ¬ 2 <= n) :
    runTmuxTrace st0 (TmuxClient.new_window cfg n horiz).cmds
      = ⟨cfg.name, .leaf none d, [], [], ""⟩ := by
  unfold TmuxClient.new_window
  rw [hd]
  simp only [if_neg h2]
  try simp only [Bool.false_eq_true, eq_self_iff_true, if_false, if_true, ite_false,
    ite_true, List.cons_append, List.nil_append]
  simp only [runTmuxTrace, runZellijTrace, List.foldl_cons, List.foldl_nil,
    applyTmux_new_window, applyTmux_split_v, applyTmux_split_h, applyTmux_split_vf,
    applyTmux_split_hf, applyTmux_sel_up, applyTmux_sel_down, applyTmux_sel_left,
    applyTmux_sel_right, applyTmux_sel_title, applyTmux_sel_layout, applyTmux_rename,
    applyTmux_send, applyZellij_new_tab, applyZellij_pane_down, applyZellij_pane_right,
    applyZellij_focus_up, applyZellij_focus_left, applyZellij_rename_pane,
    applyZellij_rename_tab, applyZellij_write_chars, applyZellij_write_enter,
    freshWindow, splitFocused_single_v, splitFocused_single_h, splitFull_single_v,
    splitFull_single_h, splitFocused_second_of_pair_v, splitFocused_second_of_pair_h,
    setTitle_single, setTitle_pair_v_fst, setTitle_pair_v_snd, setTitle_pair_h_fst,
    setTitle_pair_h_snd, setTitle_nested_v_fst, setTitle_nested_v_snd,
    setTitle_nested_h_fst, setTitle_nested_h_snd, navigate_vpair_up, navigate_vpair_down,
    navigate_hpair_left, navigate_hpair_right, navigate_nested_v_up, navigate_nested_v_down,
    navigate_nested_h_left, navigate_nested_h_right]

theorem evalT_new_pane_v2 (cfg : WindowConfig) (d : String) (n : Nat) (w0 : String)
    (t0 : Option String) (d0 : String) (inp : List String) (pnd : String)
    (hd : decodeUtf8? cfg.start_dir = some d) (h2 : 2 <= n) :
    runTmuxTrace ⟨w0, .leaf t0 d0, [], inp, pnd⟩ (TmuxClient.new_pane cfg n false).cmds
      = ⟨w0, .hsplit (.leaf t0 d0)
            (.vsplit (.leaf (some cfg.name) d) (.leaf (some cfg.name) d)),
          [true, false], inp, pnd⟩ := by
  unfold TmuxClient.new_pane
  rw [hd]
  simp only [if_pos h2]
  try simp only [Bool.false_eq_true, eq_self_iff_true, if_false, if_true, ite_false,
    ite_true, List.cons_append, List.nil_append]
  simp only [runTmuxTrace, runZellijTrace, List.foldl_cons, List.foldl_nil,
    applyTmux_new_window, applyTmux_split_v, applyTmux_split_h, applyTmux_split_vf,
    applyTmux_split_hf, applyTmux_sel_up, applyTmux_sel_down, applyTmux_sel_left,
    applyTmux_sel_right, applyTmux_sel_title, applyTmux_sel_layout, applyTmux_rename,
    applyTmux_send, applyZellij_new_tab, applyZellij_pane_down, applyZellij_pane_right,
    applyZellij_focus_up, applyZellij_focus_left, applyZellij_rename_pane,
    applyZellij_rename_tab, applyZellij_write_chars, applyZellij_write_enter,
    freshWindow, splitFocused_single_v, splitFocused_single_h, splitFull_single_v,
    splitFull_single_h, splitFocused_second_of_pair_v, splitFocused_second_of_pair_h,
    setTitle_single, setTitle_pair_v_fst, setTitle_pair_v_snd, setTitle_pair_h_fst,
    setTitle_pair_h_snd, setTitle_nested_v_fst, setTitle_nested_v_snd,
    setTitle_nested_h_fst, setTitle_nested_h_snd, navigate_vpair_up, navigate_vpair_down,
    navigate_hpair_left, navigate_hpair_right, navigate_nested_v_up, navigate_nested_v_down,
    navigate_nested_h_left, navigate_nested_h_right]

theorem evalT_new_pane_h2 (cfg : WindowConfig) (d : String) (n : Nat) (w0 : String)
    (t0 : Option String) (d0 : String) (inp : List String) (pnd : String)
    (hd : decodeUtf8? cfg.start_dir = some d) (h2 : 2 <= n) :
    runTmuxTrace ⟨w0, .leaf t0 d0, [], inp, pnd⟩ (TmuxClient.new_pane cfg n true).cmds
      = ⟨w0, .vsplit (.leaf t0 d0)
            (.hsplit (.leaf (some cfg.name) d) (.leaf (some cfg.name) d)),
          [true, false], inp, pnd⟩ := by
  unfold TmuxClient.new_pane
  rw [hd]
  simp only [if_pos h2]
  try simp only [Bool.false_eq_true, eq_self_iff_true, if_false, if_true, ite_false,
    ite_true, List.cons_append, List.nil_append]
  simp only [runTmuxTrace, runZellijTrace, List.foldl_cons, List.foldl_nil,
    applyTmux_new_window, applyTmux_split_v, applyTmux_split_h, applyTmux_split_vf,
    applyTmux_split_hf, applyTmux_sel_up, applyTmux_sel_down, applyTmux_sel_left,
    applyTmux_sel_right, applyTmux_sel_title, applyTmux_sel_layout, applyTmux_rename,
    applyTmux_send, applyZellij_new_tab, applyZellij_pane_down, applyZellij_pane_right,
    applyZellij_focus_up, applyZellij_focus_left, applyZellij_rename_pane,
    applyZellij_rename_tab, applyZellij_write_chars, applyZellij_write_enter,
    freshWindow, splitFocused_single_v, splitFocused_single_h, splitFull_single_v,
    splitFull_single_h, splitFocused_second_of_pair_v, splitFocused_second_of_pair_h,
    setTitle_single, setTitle_pair_v_fst, setTitle_pair_v_snd, setTitle_pair_h_fst,
    setTitle_pair_h_snd, setTitle_nested_v_fst, setTitle_nested_v_snd,
    setTitle_nested_h_fst, setTitle_nested_h_snd, navigate_vpair_up, navigate_vpair_down,
    navigate_hpair_left, navigate_hpair_right, navigate_nested_v_up, navigate_nested_v_down,
    navigate_nested_h_left, navigate_nested_h_right]

theorem evalT_new_pane_v1 (cfg : WindowConfig) (d : String) (n : Nat) (w0 : String)
    (t0 : Option String) (d0 : String) (inp : List String) (pnd : String)
    (hd : decodeUtf8? cfg.start_dir = some d) (h2 : ¬ 2 <= n) :
    runTmuxTrace ⟨w0, .leaf t0 d0, [], inp, pnd⟩ (TmuxClient.new_pane cfg n false).cmds
      = ⟨w0, .hsplit (.leaf t0 d0) (.leaf (some cfg.name) d), [true], inp, pnd⟩ := by
  unfold TmuxClient.new_pane
  rw [hd]
  simp only [if_neg h2]
  try simp only [Bool.false_eq_true, eq_self_iff_true, if_false, if_true, ite_false,
    ite_true, List.cons_append, List.nil_append]
  simp only [runTmuxTrace, runZellijTrace, List.foldl_cons, List.foldl_nil,
    applyTmux_new_window, applyTmux_split_v, applyTmux_split_h, applyTmux_split_vf,
    applyTmux_split_hf, applyTmux_sel_up, applyTmux_sel_down, applyTmux_sel_left,
    applyTmux_sel_right, applyTmux_sel_title, applyTmux_sel_layout, applyTmux_rename,
    applyTmux_send, applyZellij_new_tab, applyZellij_pane_down, applyZellij_pane_right,
    applyZellij_focus_up, applyZellij_focus_left, applyZellij_rename_pane,
    applyZellij_rename_tab, applyZellij_write_chars, applyZellij_write_enter,
    freshWindow, splitFocused_single_v, splitFocused_single_h, splitFull_single_v,
    splitFull_single_h, splitFocused_second_of_pair_v, splitFocused_second_of_pair_h,
    setTitle_single, setTitle_pair_v_fst, setTitle_pair_v_snd, setTitle_pair_h_fst,
    setTitle_pair_h_snd, setTitle_nested_v_fst, setTitle_nested_v_snd,
    setTitle_nested_h_fst, setTitle_nested_h_snd, navigate_vpair_up, navigate_vpair_down,
    navigate_hpair_left, navigate_hpair_right, navigate_nested_v_up, navigate_nested_v_down,
    navigate_nested_h_left, navigate_nested_h_right]

theorem evalT_new_pane_h1 (cfg : WindowConfig) (d : String) (n : Nat) (w0 : String)
    (t0 : Option String) (d0 : String) (inp : List String) (pnd : String)
    (hd : decodeUtf8? cfg.start_dir = some d) (h2 : ¬ 2 <= n) :
    runTmuxTrace ⟨w0, .leaf t0 d0, [], inp, pnd⟩ (TmuxClient.new_pane cfg n true).cmds
      = ⟨w0, .vsplit (.leaf t0 d0) (.leaf (some cfg.name) d), [true], inp, pnd⟩ := by
  unfold TmuxClient.new_pane
  rw [hd]
  simp only [if_neg h2]
  try simp only [Bool.false_eq_true, eq_self_iff_true, if_false, if_true, ite_false,
    ite_true, List.cons_append, List.nil_append]
  simp only [runTmuxTrace, runZellijTrace, List.foldl_cons, List.foldl_nil,
    applyTmux_new_window, applyTmux_split_v, applyTmux_split_h, applyTmux_split_vf,
    applyTmux_split_hf, applyTmux_sel_up, applyTmux_sel_down, applyTmux_sel_left,
    applyTmux_sel_right, applyTmux_sel_title, applyTmux_sel_layout, applyTmux_rename,
    applyTmux_send, applyZellij_new_tab, applyZellij_pane_down, applyZellij_pane_right,
    applyZellij_focus_up, applyZellij_focus_left, applyZellij_rename_pane,
    applyZellij_rename_tab, applyZellij_write_chars, applyZellij_write_enter,
    freshWindow, splitFocused_single_v, splitFocused_single_h, splitFull_single_v,
    splitFull_single_h, splitFocused_second_of_pair_v, splitFocused_second_of_pair_h,
    setTitle_single, setTitle_pair_v_fst, setTitle_pair_v_snd, setTitle_pair_h_fst,
    setTitle_pair_h_snd, setTitle_nested_v_fst, setTitle_nested_v_snd,
    setTitle_nested_h_fst, setTitle_nested_h_snd, navigate_vpair_up, navigate_vpair_down,
    navigate_hpair_left, navigate_hpair_right, navigate_nested_v_up, navigate_nested_v_down,
    navigate_nested_h_left, navigate_nested_h_right]

theorem evalZ_new_window_v (cfg : WindowConfig) (d : String) (n : Nat) (st0 : WinState)
    (hd : decodeUtf8? cfg.start_dir = some d) (h2 : 2 <= n) :
    runZellijTrace st0 (ZellijClient.new_window cfg n false).cmds
      = ⟨cfg.name, .vsplit (.leaf (some cfg.name) d) (.leaf (some cfg.name) d),
          [false], [], ""⟩ := by
  unfold ZellijClient.new_window
  rw [hd]
  simp only [if_pos h2]
  try simp only [Bool.false_eq_true, eq_self_iff_true, if_false, if_true, ite_false,
    ite_true, List.cons_append, List.nil_append]
  simp only [runTmuxTrace, runZellijTrace, List.foldl_cons, List.foldl_nil,
    applyTmux_new_window, applyTmux_split_v, applyTmux_split_h, applyTmux_split_vf,
    applyTmux_split_hf, applyTmux_sel_up, applyTmux_sel_down, applyTmux_sel_left,
    applyTmux_sel_right, applyTmux_sel_title, applyTmux_sel_layout, applyTmux_rename,
    applyTmux_send, applyZellij_new_tab, applyZellij_pane_down, applyZellij_pane_right,
    applyZellij_focus_up, applyZellij_focus_left, applyZellij_rename_pane,
    applyZellij_rename_tab, applyZellij_write_chars, applyZellij_write_enter,
    freshWindow, splitFocused_single_v, splitFocused_single_h, splitFull_single_v,
    splitFull_single_h, splitFocused_second_of_pair_v, splitFocused_second_of_pair_h,
    setTitle_single, setTitle_pair_v_fst, setTitle_pair_v_snd, setTitle_pair_h_fst,
    setTitle_pair_h_snd, setTitle_nested_v_fst, setTitle_nested_v_snd,
    setTitle_nested_h_fst, setTitle_nested_h_snd, navigate_vpair_up, navigate_vpair_down,
    navigate_hpair_left, navigate_hpair_right, navigate_nested_v_up, navigate_nested_v_down,
    navigate_nested_h_left, navigate_nested_h_right]

theorem evalZ_new_window_h (cfg : WindowConfig) (d : String) (n : Nat) (st0 : WinState)
    (hd : decodeUtf8? cfg.start_dir = some d) (h2 : 2 <= n) :
    runZellijTrace st0 (ZellijClient.new_window cfg n true).cmds
      = ⟨cfg.name, .hsplit (.leaf (some cfg.name) d) (.leaf (some cfg.name) d),
          [false], [], ""⟩ := by
  unfold ZellijClient.new_window
  rw [hd]
  simp only [if_pos h2]
  try simp only [Bool.false_eq_true, eq_self_iff_true, if_false, if_true, ite_false,
    ite_true, List.cons_append, List.nil_append]
  simp only [runTmuxTrace, runZellijTrace, List.foldl_cons, List.foldl_nil,
    applyTmux_new_window, applyTmux_split_v, applyTmux_split_h, applyTmux_split_vf,
    applyTmux_split_hf, applyTmux_sel_up, applyTmux_sel_down, applyTmux_sel_left,
    applyTmux_sel_right, applyTmux_sel_title, applyTmux_sel_layout, applyTmux_rename,
    applyTmux_send, applyZellij_new_tab, applyZellij_pane_down, applyZellij_pane_right,
    applyZellij_focus_up, applyZellij_focus_left, applyZellij_rename_pane,
    applyZellij_rename_tab, applyZellij_write_chars, applyZellij_write_enter,
    freshWindow, splitFocused_single_v, splitFocused_single_h, splitFull_single_v,
    splitFull_single_h, splitFocused_second_of_pair_v, splitFocused_second_of_pair_h,
    setTitle_single, setTitle_pair_v_fst, setTitle_pair_v_snd, setTitle_pair_h_fst,
    setTitle_pair_h_snd, setTitle_nested_v_fst, setTitle_nested_v_snd,
    setTitle_nested_h_fst, setTitle_nested_h_snd, navigate_vpair_up, navigate_vpair_down,
    navigate_hpair_left, navigate_hpair_right, navigate_nested_v_up, navigate_nested_v_down,
    navigate_nested_h_left, navigate_nested_h_right]

theorem evalZ_new_window_0 (cfg : WindowConfig) (d : String) (n : Nat) (horiz : Bool)
    (st0 : WinState) (hd : decodeUtf8? cfg.start_dir = some d) (h2 : ¬ 2 <= n) :
    runZellijTrace st0 (ZellijClient.new_window cfg n horiz).cmds
      = ⟨cfg.name, .leaf (some cfg.name) d, [], [], ""⟩ := by
  unfold ZellijClient.new_window
  rw [hd]
  simp only [if_neg h2]
  try simp only [Bool.false_eq_true, eq_self_iff_true, if_false, if_true, ite_false,
    ite_true, List.cons_append, List.nil_append]
  simp only [runTmuxTrace, runZellijTrace, List.foldl_cons, List.foldl_nil,
    applyTmux_new_window, applyTmux_split_v, applyTmux_split_h, applyTmux_split_vf,
    applyTmux_split_hf, applyTmux_sel_up, applyTmux_sel_down, applyTmux_sel_left,
    applyTmux_sel_right, applyTmux_sel_title, applyTmux_sel_layout, applyTmux_rename,
    applyTmux_send, applyZellij_new_tab, applyZellij_pane_down, applyZellij_pane_right,
    applyZellij_focus_up, applyZellij_focus_left, applyZellij_rename_pane,
    applyZellij_rename_tab, applyZellij_write_chars, applyZellij_write_enter,
    freshWindow, splitFocused_single_v, splitFocused_single_h, splitFull_single_v,
    splitFull_single_h, splitFocused_second_of_pair_v, splitFocused_second_of_pair_h,
    setTitle_single, setTitle_pair_v_fst, setTitle_pair_v_snd, setTitle_pair_h_fst,
    setTitle_pair_h_snd, setTitle_nested_v_fst, setTitle_nested_v_snd,
    setTitle_nested_h_fst, setTitle_nested_h_snd, navigate_vpair_up, navigate_vpair_down,
    navigate_hpair_left, navigate_hpair_right, navigate_nested_v_up, navigate_nested_v_down,
    navigate_nested_h_left, navigate_nested_h_right]

theorem evalZ_new_pane_v2 (cfg : WindowConfig) (d : String) (n : Nat) (w0 : String)
    (t0 : Option String) (d0 : String) (inp : List String) (pnd : String)
    (hd : decodeUtf8? cfg.start_dir = some d) (h2 : 2 <= n) :
    runZellijTrace ⟨w0, .leaf t0 d0, [], inp, pnd⟩ (ZellijClient.new_pane cfg n false).cmds
      = ⟨w0, .hsplit (.leaf t0 d0)
            (.vsplit (.leaf (some cfg.name) d) (.leaf (some cfg.name) d)),
          [true, false], inp, pnd⟩ := by
  unfold ZellijClient.new_pane
  rw [hd]
  simp only [if_pos h2]
  try simp only [Bool.false_eq_true, eq_self_iff_true, if_false, if_true, ite_false,
    ite_true, List.cons_append, List.nil_append]
  simp only [runTmuxTrace, runZellijTrace, List.foldl_cons, List.foldl_nil,
    applyTmux_new_window, applyTmux_split_v, applyTmux_split_h, applyTmux_split_vf,
    applyTmux_split_hf, applyTmux_sel_up, applyTmux_sel_down, applyTmux_sel_left,
    applyTmux_sel_right, applyTmux_sel_title, applyTmux_sel_layout, applyTmux_rename,
    applyTmux_send, applyZellij_new_tab, applyZellij_pane_down, applyZellij_pane_right,
    applyZellij_focus_up, applyZellij_focus_left, applyZellij_rename_pane,
    applyZellij_rename_tab, applyZellij_write_chars, applyZellij_write_enter,
    freshWindow, splitFocused_single_v, splitFocused_single_h, splitFull_single_v,
    splitFull_single_h, splitFocused_second_of_pair_v, splitFocused_second_of_pair_h,
    setTitle_single, setTitle_pair_v_fst, setTitle_pair_v_snd, setTitle_pair_h_fst,
    setTitle_pair_h_snd, setTitle_nested_v_fst, setTitle_nested_v_snd,
    setTitle_nested_h_fst, setTitle_nested_h_snd, navigate_vpair_up, navigate_vpair_down,
    navigate_hpair_left, navigate_hpair_right, navigate_nested_v_up, navigate_nested_v_down,
    navigate_nested_h_left, navigate_nested_h_right]

theorem evalZ_new_pane_h2 (cfg : WindowConfig) (d : String) (n : Nat) (w0 : String)
    (t0 : Option String) (d0 : String) (inp : List String) (pnd : String)
    (hd : decodeUtf8? cfg.start_dir = some d) (h2 : 2 <= n) :
    runZellijTrace ⟨w0, .leaf t0 d0, [], inp, pnd⟩ (ZellijClient.new_pane cfg n true).cmds
      = ⟨w0, .vsplit (.leaf t0 d0)
            (.hsplit (.leaf (some cfg.name) d) (.leaf (some cfg.name) d)),
          [true, false], inp, pnd⟩ := by
  unfold ZellijClient.new_pane
  rw [hd]
  simp only [if_pos h2]
  try simp only [Bool.false_eq_true, eq_self_iff_true, if_false, if_true, ite_false,
    ite_true, List.cons_append, List.nil_append]
  simp only [runTmuxTrace, runZellijTrace, List.foldl_cons, List.foldl_nil,
    applyTmux_new_window, applyTmux_split_v, applyTmux_split_h, applyTmux_split_vf,
    applyTmux_split_hf, applyTmux_sel_up, applyTmux_sel_down, applyTmux_sel_left,
    applyTmux_sel_right, applyTmux_sel_title, applyTmux_sel_layout, applyTmux_rename,
    applyTmux_send, applyZellij_new_tab, applyZellij_pane_down, applyZellij_pane_right,
    applyZellij_focus_up, applyZellij_focus_left, applyZellij_rename_pane,
    applyZellij_rename_tab, applyZellij_write_chars, applyZellij_write_enter,
    freshWindow, splitFocused_single_v, splitFocused_single_h, splitFull_single_v,
    splitFull_single_h, splitFocused_second_of_pair_v, splitFocused_second_of_pair_h,
    setTitle_single, setTitle_pair_v_fst, setTitle_pair_v_snd, setTitle_pair_h_fst,
    setTitle_pair_h_snd, setTitle_nested_v_fst, setTitle_nested_v_snd,
    setTitle_nested_h_fst, setTitle_nested_h_snd, navigate_vpair_up, navigate_vpair_down,
    navigate_hpair_left, navigate_hpair_right, navigate_nested_v_up, navigate_nested_v_down,
    navigate_nested_h_left, navigate_nested_h_right]

theorem evalZ_new_pane_v1 (cfg : WindowConfig) (d : String) (n : Nat) (w0 : String)
    (t0 : Option String) (d0 : String) (inp : List String) (pnd : String)
    (hd : decodeUtf8? cfg.start_dir = some d) (h2 : ¬ 2 <= n) :
    runZellijTrace ⟨w0, .leaf t0 d0, [], inp, pnd⟩ (ZellijClient.new_pane cfg n false).cmds
      = ⟨w0, .hsplit (.leaf t0 d0) (.leaf (some cfg.name) d), [true], inp, pnd⟩ := by
  unfold ZellijClient.new_pane
  rw [hd]
  simp only [if_neg h2]
  try simp only [Bool.false_eq_true, eq_self_iff_true, if_false, if_true, ite_false,
    ite_true, List.cons_append, List.nil_append]
  simp only [runTmuxTrace, runZellijTrace, List.foldl_cons, List.foldl_nil,
    applyTmux_new_window, applyTmux_split_v, applyTmux_split_h, applyTmux_split_vf,
    applyTmux_split_hf, applyTmux_sel_up, applyTmux_sel_down, applyTmux_sel_left,
    applyTmux_sel_right, applyTmux_sel_title, applyTmux_sel_layout, applyTmux_rename,
    applyTmux_send, applyZellij_new_tab, applyZellij_pane_down, applyZellij_pane_right,
    applyZellij_focus_up, applyZellij_focus_left, applyZellij_rename_pane,
    applyZellij_rename_tab, applyZellij_write_chars, applyZellij_write_enter,
    freshWindow, splitFocused_single_v, splitFocused_single_h, splitFull_single_v,
    splitFull_single_h, splitFocused_second_of_pair_v, splitFocused_second_of_pair_h,
    setTitle_single, setTitle_pair_v_fst, setTitle_pair_v_snd, setTitle_pair_h_fst,
    setTitle_pair_h_snd, setTitle_nested_v_fst, setTitle_nested_v_snd,
    setTitle_nested_h_fst, setTitle_nested_h_snd, navigate_vpair_up, navigate_vpair_down,
    navigate_hpair_left, navigate_hpair_right, navigate_nested_v_up, navigate_nested_v_down,
    navigate_nested_h_left, navigate_nested_h_right]

theorem evalZ_new_pane_h1 (cfg : WindowConfig) (d : String) (n : Nat) (w0 : String)
    (t0 : Option String) (d0 : String) (inp : List String) (pnd : String)
    (hd : decodeUtf8? cfg.start_dir = some d) (h2 : ¬ 2 <= n) :
    runZellijTrace ⟨w0, .leaf t0 d0, [], inp, pnd⟩ (ZellijClient.new_pane cfg n true).cmds
      = ⟨w0, .vsplit (.leaf t0 d0) (.leaf (some cfg.name) d), [true], inp, pnd⟩ := by
  unfold ZellijClient.new_pane
  rw [hd]
  simp only [if_neg h2]
  try simp only [Bool.false_eq_true, eq_self_iff_true, if_false, if_true, ite_false,
    ite_true, List.cons_append, List.nil_append]
  simp only [runTmuxTrace, runZellijTrace, List.foldl_cons, List.foldl_nil,
    applyTmux_new_window, applyTmux_split_v, applyTmux_split_h, applyTmux_split_vf,
    applyTmux_split_hf, applyTmux_sel_up, applyTmux_sel_down, applyTmux_sel_left,
    applyTmux_sel_right, applyTmux_sel_title, applyTmux_sel_layout, applyTmux_rename,
    applyTmux_send, applyZellij_new_tab, applyZellij_pane_down, applyZellij_pane_right,
    applyZellij_focus_up, applyZellij_focus_left, applyZellij_rename_pane,
    applyZellij_rename_tab, applyZellij_write_chars, applyZellij_write_enter,
    freshWindow, splitFocused_single_v, splitFocused_single_h, splitFull_single_v,
    splitFull_single_h, splitFocused_second_of_pair_v, splitFocused_second_of_pair_h,
    setTitle_single, setTitle_pair_v_fst, setTitle_pair_v_snd, setTitle_pair_h_fst,
    setTitle_pair_h_snd, setTitle_nested_v_fst, setTitle_nested_v_snd,
    setTitle_nested_h_fst, setTitle_nested_h_snd, navigate_vpair_up, navigate_vpair_down,
    navigate_hpair_left, navigate_hpair_right, navigate_nested_v_up, navigate_nested_v_down,
    navigate_nested_h_left, navigate_nested_h_right]

/-! ## Theorems -/

/-- C1 fails as stated: with roots `["/a", "/a/b"]` and path `"/a/b/c"`,
the code strips the first matching root `"/a"` (label `"b/c"`), not the
longest matching root `"/a/b"` (label `"c"`). -/
theorem C1_counterexample :
    displayLabel ["/a", "/a/b"] "/a/b/c"
      ≠ displayLabelLongestSpec ["/a", "/a/b"] "/a/b/c" := by
  decide

/-- C1 (amended): for every list of roots R and repository path p, the
display label strips the FIRST root of R (in list order) that is a string
prefix of p, with leading separators removed; with no matching root the
label is p verbatim — the no-match fallback is never an error. -/
theorem C1_display_label_uses_first_root (roots : List String) (p : String) :
    displayLabel roots p = displayLabelFirstSpec roots p := by
  unfold displayLabel displayLabelFirstSpec
  induction roots with
  | nil => rfl
  | cons r rs ih =>
    cases hb : r.data.isPrefixOf p.data with
    | true => simp [List.findSome?, List.find?, stripPrefixStr, hb]
    | false => simpa [List.findSome?, List.find?, stripPrefixStr, hb] using ih

/-- C2 fails as stated: `new_pane` with `pane_count = 1` (which is `< 2`)
still issues a split command — the primary split that carves out the new
pane. -/
theorem C2_counterexample :
    (TmuxClient.new_pane ⟨"repo", [47, 120]⟩ 1 false).cmds.filter isSplitCmd ≠ [] := by
  decide

/-- C2 (amended): `new_window` with `pane_count < 2` issues no split
command and with `pane_count ≥ 2` exactly one; `new_pane` always issues
one primary split and with `pane_count ≥ 2` exactly one additional
secondary split; in every case each pane created by the operation ends
titled `cfg.name` when `pane_count ≥ 2` (for `new_window`, both resulting
panes; for `new_pane`, both resulting sub-panes, the pre-existing pane
being untouched). -/
theorem C2_split_and_title_discipline (cfg : WindowConfig) (d : String) (n : Nat)
    (horiz : Bool) (st0 : WinState) (w0 : String) (t0 : Option String) (d0 : String)
    (inp : List String) (pnd : String)
    (hd : decodeUtf8? cfg.start_dir = some d) :
    ((TmuxClient.new_window cfg n horiz).cmds.filter isSplitCmd).length
        = (if 2 ≤ n then 1 else 0) ∧
    ((TmuxClient.new_pane cfg n horiz).cmds.filter isSplitCmd).length
        = (if 2 ≤ n then 2 else 1) ∧
    (runTmuxTrace st0 (TmuxClient.new_window cfg n horiz).cmds).layout.panes
        = (if 2 ≤ n then [(some cfg.name, d), (some cfg.name, d)] else [(none, d)]) ∧
    (runTmuxTrace ⟨w0, .leaf t0 d0, [], inp, pnd⟩
        (TmuxClient.new_pane cfg n horiz).cmds).layout.panes
        = (if 2 ≤ n then [(t0, d0), (some cfg.name, d), (some cfg.name, d)]
           else [(t0, d0), (some cfg.name, d)]) := by
  refine ⟨?_, ?_, ?_, ?_⟩
  · unfold TmuxClient.new_window
    rw [hd]
    by_cases h2 : 2 ≤ n
    · simp only [if_pos h2]; cases horiz <;> rfl
    · simp only [if_neg h2]; rfl
  · unfold TmuxClient.new_pane
    rw [hd]
    by_cases h2 : 2 ≤ n
    · simp only [if_pos h2]; cases horiz <;> rfl
    · simp only [if_neg h2]; cases horiz <;> rfl
  · by_cases h2 : 2 ≤ n
    · simp only [if_pos h2]
      cases horiz
      · rw [evalT_new_window_v cfg d n st0 hd h2]; rfl
      · rw [evalT_new_window_h cfg d n st0 hd h2]; rfl
    · simp only [if_neg h2]
      rw [evalT_new_window_0 cfg d n horiz st0 hd h2]; rfl
  · by_cases h2 : 2 ≤ n
    · simp only [if_pos h2]
      cases horiz
      · rw [evalT_new_pane_v2 cfg d n w0 t0 d0 inp pnd hd h2]; rfl
      · rw [evalT_new_pane_h2 cfg d n w0 t0 d0 inp pnd hd h2]; rfl
    · simp only [if_neg h2]
      cases horiz
      · rw [evalT_new_pane_v1 cfg d n w0 t0 d0 inp pnd hd h2]; rfl
      · rw [evalT_new_pane_h1 cfg d n w0 t0 d0 inp pnd hd h2]; rfl

/-- C2 (amended) at a concrete input: config named `repo` at directory
`/x` (bytes `[47, 120]`), two panes, vertical. -/
theorem C2_split_and_title_discipline_witness :
    decodeUtf8? (WindowConfig.mk "repo" [47, 120]).start_dir = some "/x" ∧
    (((TmuxClient.new_window ⟨"repo", [47, 120]⟩ 2 false).cmds.filter isSplitCmd).length
        = (if 2 ≤ 2 then 1 else 0) ∧
     ((TmuxClient.new_pane ⟨"repo", [47, 120]⟩ 2 false).cmds.filter isSplitCmd).length
        = (if 2 ≤ 2 then 2 else 1) ∧
     (runTmuxTrace (freshWindow "w" "c")
         (TmuxClient.new_window ⟨"repo", [47, 120]⟩ 2 false).cmds).layout.panes
        = (if 2 ≤ 2 then [(some "repo", "/x"), (some "repo", "/x")] else [(none, "/x")]) ∧
     (runTmuxTrace ⟨"w", .leaf (some "t") "d0", [], [], ""⟩
         (TmuxClient.new_pane ⟨"repo", [47, 120]⟩ 2 false).cmds).layout.panes
        = (if 2 ≤ 2 then [(some "t", "d0"), (some "repo", "/x"), (some "repo", "/x")]
           else [(some "t", "d0"), (some "repo", "/x")])) :=
  ⟨by decide,
   C2_split_and_title_discipline ⟨"repo", [47, 120]⟩ "/x" 2 false
     (freshWindow "w" "c") "w" (some "t") "d0" [] "" (by decide)⟩

/-- C3: outside an active multiplexer session every mode collapses to
`CurrentPane`: `handle_selection` changes the working directory to the
selected path and replaces the process image with the configured shell
(default `/bin/sh`), with no multiplexer operation at all (in particular
no `new_window` or `new_pane`, and not even a rename attempt, which the
claim allows as "at most" one). -/
theorem C3_outside_session_collapses_to_current_pane (selected : String)
    (mode : TmuxMode) (command : Option String) (shellVar : Option String) :
    handle_selection selected mode command false shellVar
        = handle_selection selected TmuxMode.currentPane command false shellVar ∧
    handle_selection selected mode command false shellVar
        = [Effect.setCurrentDir selected, Effect.execShell (shellVar.getD "/bin/sh")] :=
  ⟨rfl, rfl⟩

/-- C4: `new_window` with `pane_count ≥ 2` succeeds and issues, in order:
window creation titled `cfg.name` rooted at the start directory, one split
along the axis selected by `horizontal` (`-h` = left/right when true,
`-v` = top/bottom when false), a visit to the far pane relative to the
split direction (the pane on the opposite side of the newly created,
focused one) setting its title, a visit to the near pane setting its
title, a focus return to the first pane, and a layout equalization. -/
theorem C4_new_window_command_order (cfg : WindowConfig) (d : String) (n : Nat)
    (horiz : Bool) (hd : decodeUtf8? cfg.start_dir = some d) (h2 : 2 ≤ n) :
    (TmuxClient.new_window cfg n horiz).err = none ∧
    (TmuxClient.new_window cfg n horiz).cmds =
      [tmuxCmd ["new-window", "-n", cfg.name, "-c", d],
       tmuxCmd ["split-window", if horiz then "-h" else "-v", "-c", d],
       tmuxCmd ["select-pane", if horiz then "-L" else "-U"],
       tmuxCmd ["select-pane", "-T", cfg.name],
       tmuxCmd ["select-pane", if horiz then "-R" else "-D"],
       tmuxCmd ["select-pane", "-T", cfg.name],
       tmuxCmd ["select-pane", if horiz then "-L" else "-U"],
       tmuxCmd ["select-layout", "-E"]] := by
  unfold TmuxClient.new_window
  rw [hd]
  simp only [if_pos h2]
  exact ⟨trivial, trivial⟩

/-- C4 at a concrete input: config named `repo` at `/x`, two panes,
horizontal. -/
theorem C4_new_window_command_order_witness :
    decodeUtf8? (WindowConfig.mk "repo" [47, 120]).start_dir = some "/x" ∧ 2 ≤ 2 ∧
    ((TmuxClient.new_window ⟨"repo", [47, 120]⟩ 2 true).err = none ∧
     (TmuxClient.new_window ⟨"repo", [47, 120]⟩ 2 true).cmds =
       [tmuxCmd ["new-window", "-n", "repo", "-c", "/x"],
        tmuxCmd ["split-window", if true then "-h" else "-v", "-c", "/x"],
        tmuxCmd ["select-pane", if true then "-L" else "-U"],
        tmuxCmd ["select-pane", "-T", "repo"],
        tmuxCmd ["select-pane", if true then "-R" else "-D"],
        tmuxCmd ["select-pane", "-T", "repo"],
        tmuxCmd ["select-pane", if true then "-L" else "-U"],
        tmuxCmd ["select-layout", "-E"]]) :=
  ⟨by decide, by decide,
   C4_new_window_command_order ⟨"repo", [47, 120]⟩ "/x" 2 true (by decide) (by decide)⟩

/-- C5: when the interactive selection yields nothing (user abort, i.e.
non-zero fzf exit, or empty fzf output as with an empty candidate list),
`select_repository` returns the empty string — not an error — and
`run_with_deps` treats it as a normal early exit: it returns success with
no effect at all (no multiplexer call, no directory change, no shell
replacement). -/
theorem C5_empty_selection_normal_exit (mode : TmuxMode) (command : Option String)
    (use_tmux batOk fzfExitOk : Bool) (rootsOut listOut fzfStdout : String)
    (tmuxVar shellVar : Option String)
    (hnone : run_fzf_post fzfExitOk fzfStdout = none) :
    select_repository
        ⟨true, true, batOk, some rootsOut, some listOut, fzfExitOk, fzfStdout, tmuxVar, shellVar⟩
      = Except.ok "" ∧
    run_with_deps mode command use_tmux
        ⟨true, true, batOk, some rootsOut, some listOut, fzfExitOk, fzfStdout, tmuxVar, shellVar⟩
      = Except.ok [] := by
  constructor
  · simp [select_repository, ghqRootsOf, ghqListOf, hnone, Bind.bind, Except.bind,
      Pure.pure, Except.pure]
  · simp [run_with_deps, checkTool, select_repository, ghqRootsOf, ghqListOf, hnone,
      Bind.bind, Except.bind, Pure.pure, Except.pure]

/-- C5 at a concrete input: aborted fzf (non-zero exit). -/
theorem C5_empty_selection_normal_exit_witness :
    run_fzf_post false "" = none ∧
    (select_repository ⟨true, true, true, some "", some "", false, "", none, none⟩
        = Except.ok "" ∧
     run_with_deps TmuxMode.currentPane none false
        ⟨true, true, true, some "", some "", false, "", none, none⟩
        = Except.ok []) :=
  ⟨rfl, C5_empty_selection_normal_exit TmuxMode.currentPane none false true false
    "" "" "" none none rfl⟩

/-- C6: command-injection text together with a requested pane count of 2
makes `run` fail with `InvalidFlagCombination` no matter what the outside
world looks like — the validation precedes every tool check, the
selection, and any multiplexer command, so nothing external runs first. -/
theorem C6_command_with_two_panes_rejected (a : Args) (s : String) (w : World)
    (hp : a.new_pane = some 2) (hc : a.command = some s) :
    run a w = Except.error AppError.invalidFlagCombination := by
  unfold run
  rw [hp, hc]
  simp

/-- C6 at a concrete input: `-p 2 -c make` against a fully healthy world. -/
theorem C6_command_with_two_panes_rejected_witness :
    (Args.mk false false (some 2) false false (some "make")).new_pane = some 2 ∧
    (Args.mk false false (some 2) false false (some "make")).command = some "make" ∧
    run (Args.mk false false (some 2) false false (some "make"))
        (World.mk true true true (some "") (some "") true "" none none)
      = Except.error AppError.invalidFlagCombination :=
  ⟨rfl, rfl,
   C6_command_with_two_panes_rejected (Args.mk false false (some 2) false false (some "make"))
     "make" (World.mk true true true (some "") (some "") true "" none none) rfl rfl⟩

/-- C7: toggling `horizontal` at pane count 2 transposes every issued
command's axis (split orientation and navigation direction), keeps the
number of issued commands identical, and the resulting layout for
`horizontal = true` is the axis-mirror of the layout for
`horizontal = false` with the same number of panes, for both `new_window`
and `new_pane`. -/
theorem C7_orientation_mirror (cfg : WindowConfig) (d : String) (st0 : WinState)
    (w0 : String) (t0 : Option String) (d0 : String) (inp : List String) (pnd : String)
    (hd : decodeUtf8? cfg.start_dir = some d) :
    (TmuxClient.new_window cfg 2 true).cmds
        = (TmuxClient.new_window cfg 2 false).cmds.map transposeCmd ∧
    (TmuxClient.new_pane cfg 2 true).cmds
        = (TmuxClient.new_pane cfg 2 false).cmds.map transposeCmd ∧
    (TmuxClient.new_window cfg 2 true).cmds.length
        = (TmuxClient.new_window cfg 2 false).cmds.length ∧
    (TmuxClient.new_pane cfg 2 true).cmds.length
        = (TmuxClient.new_pane cfg 2 false).cmds.length ∧
    (runTmuxTrace st0 (TmuxClient.new_window cfg 2 true).cmds).layout
        = mirrorLayout (runTmuxTrace st0 (TmuxClient.new_window cfg 2 false).cmds).layout ∧
    (runTmuxTrace st0 (TmuxClient.new_window cfg 2 true).cmds).layout.panes.length
        = (runTmuxTrace st0 (TmuxClient.new_window cfg 2 false).cmds).layout.panes.length ∧
    (runTmuxTrace ⟨w0, .leaf t0 d0, [], inp, pnd⟩
        (TmuxClient.new_pane cfg 2 true).cmds).layout
        = mirrorLayout (runTmuxTrace ⟨w0, .leaf t0 d0, [], inp, pnd⟩
            (TmuxClient.new_pane cfg 2 false).cmds).layout ∧
    (runTmuxTrace ⟨w0, .leaf t0 d0, [], inp, pnd⟩
        (TmuxClient.new_pane cfg 2 true).cmds).layout.panes.length
        = (runTmuxTrace ⟨w0, .leaf t0 d0, [], inp, pnd⟩
            (TmuxClient.new_pane cfg 2 false).cmds).layout.panes.length := by
  have h2 : 2 ≤ 2 := Nat.le_refl 2
  refine ⟨?_, ?_, ?_, ?_, ?_, ?_, ?_, ?_⟩
  · unfold TmuxClient.new_window
    rw [hd]
    rfl
  · unfold TmuxClient.new_pane
    rw [hd]
    rfl
  · unfold TmuxClient.new_window
    rw [hd]
    rfl
  · unfold TmuxClient.new_pane
    rw [hd]
    rfl
  · rw [evalT_new_window_h cfg d 2 st0 hd h2, evalT_new_window_v cfg d 2 st0 hd h2]
    rfl
  · rw [evalT_new_window_h cfg d 2 st0 hd h2, evalT_new_window_v cfg d 2 st0 hd h2]
    rfl
  · rw [evalT_new_pane_h2 cfg d 2 w0 t0 d0 inp pnd hd h2,
      evalT_new_pane_v2 cfg d 2 w0 t0 d0 inp pnd hd h2]
    rfl
  · rw [evalT_new_pane_h2 cfg d 2 w0 t0 d0 inp pnd hd h2,
      evalT_new_pane_v2 cfg d 2 w0 t0 d0 inp pnd hd h2]
    rfl

/-- C7 at a concrete input: config named `repo` at `/x`, starting from a
fresh single-pane window. -/
theorem C7_orientation_mirror_witness :
    decodeUtf8? (WindowConfig.mk "repo" [47, 120]).start_dir = some "/x" ∧
    ((TmuxClient.new_window ⟨"repo", [47, 120]⟩ 2 true).cmds
        = (TmuxClient.new_window ⟨"repo", [47, 120]⟩ 2 false).cmds.map transposeCmd ∧
     (TmuxClient.new_pane ⟨"repo", [47, 120]⟩ 2 true).cmds
        = (TmuxClient.new_pane ⟨"repo", [47, 120]⟩ 2 false).cmds.map transposeCmd ∧
     (TmuxClient.new_window ⟨"repo", [47, 120]⟩ 2 true).cmds.length
        = (TmuxClient.new_window ⟨"repo", [47, 120]⟩ 2 false).cmds.length ∧
     (TmuxClient.new_pane ⟨"repo", [47, 120]⟩ 2 true).cmds.length
        = (TmuxClient.new_pane ⟨"repo", [47, 120]⟩ 2 false).cmds.length ∧
     (runTmuxTrace (freshWindow "w" "c")
        (TmuxClient.new_window ⟨"repo", [47, 120]⟩ 2 true).cmds).layout
        = mirrorLayout (runTmuxTrace (freshWindow "w" "c")
            (TmuxClient.new_window ⟨"repo", [47, 120]⟩ 2 false).cmds).layout ∧
     (runTmuxTrace (freshWindow "w" "c")
        (TmuxClient.new_window ⟨"repo", [47, 120]⟩ 2 true).cmds).layout.panes.length
        = (runTmuxTrace (freshWindow "w" "c")
            (TmuxClient.new_window ⟨"repo", [47, 120]⟩ 2 false).cmds).layout.panes.length ∧
     (runTmuxTrace ⟨"w", .leaf (some "t") "d0", [], [], ""⟩
        (TmuxClient.new_pane ⟨"repo", [47, 120]⟩ 2 true).cmds).layout
        = mirrorLayout (runTmuxTrace ⟨"w", .leaf (some "t") "d0", [], [], ""⟩
            (TmuxClient.new_pane ⟨"repo", [47, 120]⟩ 2 false).cmds).layout ∧
     (runTmuxTrace ⟨"w", .leaf (some "t") "d0", [], [], ""⟩
        (TmuxClient.new_pane ⟨"repo", [47, 120]⟩ 2 true).cmds).layout.panes.length
        = (runTmuxTrace ⟨"w", .leaf (some "t") "d0", [], [], ""⟩
            (TmuxClient.new_pane ⟨"repo", [47, 120]⟩ 2 false).cmds).layout.panes.length) :=
  ⟨by decide,
   C7_orientation_mirror ⟨"repo", [47, 120]⟩ "/x" (freshWindow "w" "c") "w" (some "t")
     "d0" [] "" (by decide)⟩

/-- C8 fails as stated: for `new_window` with pane count 0 the two
backends produce observably different layouts — the alternate backend
(zellij) titles the initial pane `repo`, while the real backend (tmux)
leaves it untitled. -/
theorem C8_counterexample :
    runZellijTrace (freshWindow "w" "c")
        (ZellijClient.new_window ⟨"repo", [47, 120]⟩ 0 false).cmds
      ≠ runTmuxTrace (freshWindow "w" "c")
        (TmuxClient.new_window ⟨"repo", [47, 120]⟩ 0 false).cmds := by
  decide

/-- C8 (amended): the two backends produce identical observable layouts
(pane tree with titles and working directories, focus, window title,
typed input) for `new_pane` at every pane count and orientation, for
`rename_window`, for `send_keys`, and for `new_window` with
`pane_count ≥ 2`; for `new_window` with `pane_count < 2` the only
difference is that the alternate backend additionally titles the initial
pane `cfg.name`. -/
theorem C8_backend_equivalence (cfg : WindowConfig) (d : String) (n : Nat)
    (horiz : Bool) (st0 : WinState) (w0 : String) (t0 : Option String) (d0 : String)
    (inp : List String) (pnd : String) (nm k : String)
    (hd : decodeUtf8? cfg.start_dir = some d) :
    (2 ≤ n →
      runZellijTrace st0 (ZellijClient.new_window cfg n horiz).cmds
        = runTmuxTrace st0 (TmuxClient.new_window cfg n horiz).cmds) ∧
    (¬ 2 ≤ n →
      runZellijTrace st0 (ZellijClient.new_window cfg n horiz).cmds
        = WinState.setTitleFocused cfg.name
            (runTmuxTrace st0 (TmuxClient.new_window cfg n horiz).cmds)) ∧
    runZellijTrace ⟨w0, .leaf t0 d0, [], inp, pnd⟩ (ZellijClient.new_pane cfg n horiz).cmds
        = runTmuxTrace ⟨w0, .leaf t0 d0, [], inp, pnd⟩ (TmuxClient.new_pane cfg n horiz).cmds ∧
    runZellijTrace st0 (ZellijClient.rename_window nm).cmds
        = runTmuxTrace st0 (TmuxClient.rename_window nm).cmds ∧
    runZellijTrace st0 (ZellijClient.send_keys k).cmds
        = runTmuxTrace st0 (TmuxClient.send_keys k).cmds := by
  refine ⟨?_, ?_, ?_, ?_, ?_⟩
  · intro h2
    cases horiz
    · rw [evalZ_new_window_v cfg d n st0 hd h2, evalT_new_window_v cfg d n st0 hd h2]
    · rw [evalZ_new_window_h cfg d n st0 hd h2, evalT_new_window_h cfg d n st0 hd h2]
  · intro h2
    rw [evalZ_new_window_0 cfg d n horiz st0 hd h2,
      evalT_new_window_0 cfg d n horiz st0 hd h2]
    rfl
  · by_cases h2 : 2 ≤ n
    · cases horiz
      · rw [evalZ_new_pane_v2 cfg d n w0 t0 d0 inp pnd hd h2,
          evalT_new_pane_v2 cfg d n w0 t0 d0 inp pnd hd h2]
      · rw [evalZ_new_pane_h2 cfg d n w0 t0 d0 inp pnd hd h2,
          evalT_new_pane_h2 cfg d n w0 t0 d0 inp pnd hd h2]
    · cases horiz
      · rw [evalZ_new_pane_v1 cfg d n w0 t0 d0 inp pnd hd h2,
          evalT_new_pane_v1 cfg d n w0 t0 d0 inp pnd hd h2]
      · rw [evalZ_new_pane_h1 cfg d n w0 t0 d0 inp pnd hd h2,
          evalT_new_pane_h1 cfg d n w0 t0 d0 inp pnd hd h2]
  · rfl
  · rfl

/-- C8 (amended) at a concrete input: config named `repo` at `/x`, two
panes, both orientations' regimes exercised at `n = 2`. -/
theorem C8_backend_equivalence_witness :
    decodeUtf8? (WindowConfig.mk "repo" [47, 120]).start_dir = some "/x" ∧
    ((2 ≤ 2 →
      runZellijTrace (freshWindow "w" "c")
          (ZellijClient.new_window ⟨"repo", [47, 120]⟩ 2 false).cmds
        = runTmuxTrace (freshWindow "w" "c")
          (TmuxClient.new_window ⟨"repo", [47, 120]⟩ 2 false).cmds) ∧
     (¬ 2 ≤ 2 →
      runZellijTrace (freshWindow "w" "c")
          (ZellijClient.new_window ⟨"repo", [47, 120]⟩ 2 false).cmds
        = WinState.setTitleFocused "repo"
            (runTmuxTrace (freshWindow "w" "c")
              (TmuxClient.new_window ⟨"repo", [47, 120]⟩ 2 false).cmds)) ∧
     runZellijTrace ⟨"w", .leaf (some "t") "d0", [], [], ""⟩
          (ZellijClient.new_pane ⟨"repo", [47, 120]⟩ 2 false).cmds
        = runTmuxTrace ⟨"w", .leaf (some "t") "d0", [], [], ""⟩
          (TmuxClient.new_pane ⟨"repo", [47, 120]⟩ 2 false).cmds ∧
     runZellijTrace (freshWindow "w" "c") (ZellijClient.rename_window "r2").cmds
        = runTmuxTrace (freshWindow "w" "c") (TmuxClient.rename_window "r2").cmds ∧
     runZellijTrace (freshWindow "w" "c") (ZellijClient.send_keys "make").cmds
        = runTmuxTrace (freshWindow "w" "c") (TmuxClient.send_keys "make").cmds) :=
  ⟨by decide,
   C8_backend_equivalence ⟨"repo", [47, 120]⟩ "/x" 2 false (freshWindow "w" "c") "w"
     (some "t") "d0" [] "" "r2" "make" (by decide)⟩

/-- C9: a `start_dir` that is not valid UTF-8 makes `new_window` and
`new_pane` fail with `InvalidPath` on both real backends, with no
multiplexer command issued at all before the failure. -/
theorem C9_invalid_utf8_start_dir (cfg : WindowConfig) (n : Nat) (horiz : Bool)
    (hbad : decodeUtf8? cfg.start_dir = none) :
    TmuxClient.new_window cfg n horiz = ⟨[], some .invalidPath⟩ ∧
    TmuxClient.new_pane cfg n horiz = ⟨[], some .invalidPath⟩ ∧
    ZellijClient.new_window cfg n horiz = ⟨[], some .invalidPath⟩ ∧
    ZellijClient.new_pane cfg n horiz = ⟨[], some .invalidPath⟩ := by
  refine ⟨?_, ?_, ?_, ?_⟩
  · unfold TmuxClient.new_window
    rw [hbad]
  · unfold TmuxClient.new_pane
    rw [hbad]
  · unfold ZellijClient.new_window
    rw [hbad]
  · unfold ZellijClient.new_pane
    rw [hbad]

/-- C9 at a concrete input: the single byte `0xFF` is not valid UTF-8. -/
theorem C9_invalid_utf8_start_dir_witness :
    decodeUtf8? (WindowConfig.mk "repo" [255]).start_dir = none ∧
    (TmuxClient.new_window ⟨"repo", [255]⟩ 2 false = ⟨[], some .invalidPath⟩ ∧
     TmuxClient.new_pane ⟨"repo", [255]⟩ 2 false = ⟨[], some .invalidPath⟩ ∧
     ZellijClient.new_window ⟨"repo", [255]⟩ 2 false = ⟨[], some .invalidPath⟩ ∧
     ZellijClient.new_pane ⟨"repo", [255]⟩ 2 false = ⟨[], some .invalidPath⟩) :=
  ⟨by decide, C9_invalid_utf8_start_dir ⟨"repo", [255]⟩ 2 false (by decide)⟩

/-- C10: whenever the effective mode is `CurrentPane` (in particular for
every requested mode outside a multiplexer session), supplied
command-injection text is silently ignored: the effect list is the same
as with no command text, and `send_keys` is never invoked. -/
theorem C10_current_pane_ignores_command (selected : String) (mode : TmuxMode)
    (command : Option String) (use_tmux : Bool) (shellVar : Option String) (k : String)
    (hm : effectiveModeOf use_tmux mode = TmuxMode.currentPane) :
    handle_selection selected mode command use_tmux shellVar
        = handle_selection selected mode none use_tmux shellVar ∧
    Effect.muxSendKeys k ∉ handle_selection selected mode command use_tmux shellVar := by
  unfold handle_selection
  rw [hm]
  refine ⟨rfl, ?_⟩
  cases use_tmux <;> simp

/-- C10 at a concrete input: a `NewPane` request with command text
`make`, outside a multiplexer session. -/
theorem C10_current_pane_ignores_command_witness :
    effectiveModeOf false (TmuxMode.newPane 2 true) = TmuxMode.currentPane ∧
    (handle_selection "/a/b" (TmuxMode.newPane 2 true) (some "make") false none
        = handle_selection "/a/b" (TmuxMode.newPane 2 true) none false none ∧
     Effect.muxSendKeys "make" ∉
       handle_selection "/a/b" (TmuxMode.newPane 2 true) (some "make") false none) :=
  ⟨rfl,
   C10_current_pane_ignores_command "/a/b" (TmuxMode.newPane 2 true) (some "make") false
     none "make" rfl⟩

end GhGhqCd
